import Mathlib

/-!
Formal model of the mail-cron service's ingestion/classification/notification
pipeline, embedded shallowly from the JavaScript sources:

  * src/src/helpers/classifier.js   (two-tier email classifier)
  * src/src/utils/logger.js         (server file: windowing, provider sweep,
                                     user sweep, failure alerting, cron route)
  * database helper (isEmailNotified, saveEmail, updateLastChecked,
                     canSendFailureAlert, recordFailureAlert, getActiveUsers)
  * models (User / Email document shapes)

Conventions of the embedding:
  * JavaScript timestamps (milliseconds since epoch) are `Int`.
  * JavaScript numbers used for scores are `Nat` (all scores are non-negative;
    `Math.max(0, x - y)` on naturals is truncated subtraction).
  * Classification confidences are modelled as exact rationals `ℚ`.
  * External collaborators (mail-fetch adapters, the Telegram bot, the Gemini
    backend) are oracles passed as explicit arguments; a throwing call is an
    `Except.error` value.
  * The MongoDB collections are explicit lists of documents threaded through
    the functions; `await`ed database mutations become state-passing.
-/

set_option maxRecDepth 8000

namespace MailCron

/-! ## Basic enumerations -/

/-- The two supported mail providers (the strings "gmail" / "outlook" in JS). -/
inductive Provider
  | gmail
  | outlook
deriving DecidableEq

/-- The provider's string name, as used to build `uniqueId` keys. -/
def providerName : Provider → String
  | .gmail => "gmail"
  | .outlook => "outlook"

/-- CATEGORIES from classifier.js lines 12-18: the closed label set. -/
inductive Category
  | PLACEMENT_DRIVE
  | INTERVIEW
  | ASSESSMENT
  | SHORTLISTED
  | OTHER
deriving DecidableEq

/-- The `method` tag of a classification result. -/
inductive Method
  | keyword
  | ai
  | keyword_fallback
deriving DecidableEq

/-- A normalized message as produced by the fetch adapters and consumed by
`keywordClassify` / the provider sweep.  Only the fields that the pipeline
reads are modelled (`subject`, `snippet`, `body`, `from`, `provider`,
`messageId`); inert payload fields (`to`, `webLink`, ...) are omitted. -/
structure Email where
  provider : Provider
  messageId : String
  subject : String
  fromAddr : String
  snippet : String
  body : String
deriving DecidableEq

/-! ## Character-list string primitives

JavaScript's `String.prototype.includes` and the (fixed, literal) regular
expressions of the classifier are modelled over `List Char`. -/

/-- `leadsWith pat s` is true when `pat` is an initial segment of `s`. -/
def leadsWith : List Char → List Char → Bool
  | [], _ => true
  | _ :: _, [] => false
  | a :: pa, b :: sb => decide (a = b) && leadsWith pa sb

/-- `occursIn pat s` models `s.includes(pat)`: `pat` occurs contiguously in
`s` (the empty pattern occurs in every string, as in JavaScript). -/
def occursIn (pat : List Char) : List Char → Bool
  | [] => pat.isEmpty
  | c :: rest => leadsWith pat (c :: rest) || occursIn pat rest

/-- Lower-casing of a character: ASCII letters are lowered, everything else is
untouched.  (JavaScript's `toLowerCase` also lowers non-ASCII letters, but
every pattern the classifier matches against is ASCII, so non-ASCII casing
cannot change any match result.) -/
def lowerChar (c : Char) : Char := c.toLower

/-- Lower-casing of a character list. -/
def lowerList (l : List Char) : List Char := l.map lowerChar

/-- JavaScript line terminators, which `.` in a regex does not match. -/
def isLineTerm (c : Char) : Bool :=
  decide (c = '\n') || decide (c = '\r')
    || decide (c.toNat = 0x2028) || decide (c.toNat = 0x2029)

/-- `matchToNL pat s` is true when `pat` occurs in `s` at a position reachable
from the start of `s` without crossing a line terminator. -/
def matchToNL (pat : List Char) : List Char → Bool
  | [] => leadsWith pat []
  | c :: rest => leadsWith pat (c :: rest) || (!isLineTerm c && matchToNL pat rest)

/-- `dotStarTest p1 p2 s` models `new RegExp(p1 + ".*" + p2).test(s)` for
literal `p1`, `p2`: some occurrence of `p1` is followed (with no line
terminator in between, since `.` does not match them) by an occurrence of
`p2`. -/
def dotStarTest (p1 p2 : List Char) : List Char → Bool
  | [] => p1.isEmpty && matchToNL p2 []
  | c :: rest =>
    (leadsWith p1 (c :: rest) && matchToNL p2 ((c :: rest).drop p1.length))
      || dotStarTest p1 p2 rest

/-! ## Keyword tables (classifier.js lines 21-74) -/

/-- One category's keyword tiers (`high` = 3 points, `medium` = 2, `low` = 1). -/
structure KwTiers where
  high : List String
  medium : List String
  low : List String

/-- KEYWORD_SCORES.PLACEMENT_DRIVE, classifier.js lines 23-28. -/
def placementDriveKws : KwTiers :=
  { high := ["placement drive", "campus placement", "placement season",
             "placement opportunity", "campus recruitment", "recruitment drive",
             "pool campus", "off campus placement"]
    medium := ["placement", "campus hiring", "fresher hiring", "batch hiring",
               "graduate hiring"]
    low := ["career opportunity", "job opportunity", "hiring"] }

/-- KEYWORD_SCORES.INTERVIEW, classifier.js lines 31-37. -/
def interviewKws : KwTiers :=
  { high := ["interview schedule", "interview invitation", "technical interview",
             "hr interview", "interview round", "interview slot", "interview call",
             "interview date", "join the interview", "interview link",
             "zoom interview", "teams interview"]
    medium := ["interview", "interviewing", "face to face", "video call",
               "screening call"]
    low := ["discussion", "meeting scheduled"] }

/-- KEYWORD_SCORES.ASSESSMENT, classifier.js lines 40-46. -/
def assessmentKws : KwTiers :=
  { high := ["online assessment", "coding test", "aptitude test", "technical test",
             "online test", "assessment link", "test invitation", "hackerrank",
             "hackerearth", "codility", "mettl", "amcat", "cocubes",
             "assessment invitation"]
    medium := ["assessment", "test scheduled", "exam link", "proctored test",
               "coding challenge"]
    low := ["test", "quiz", "evaluation"] }

/-- KEYWORD_SCORES.SHORTLISTED, classifier.js lines 49-55. -/
def shortlistedKws : KwTiers :=
  { high := ["you have been shortlisted", "shortlisted for",
             "congratulations you are shortlisted", "selected for next round",
             "cleared the round", "qualified for", "you are selected",
             "offer letter", "job offer", "we are pleased to offer"]
    medium := ["shortlisted", "selected", "congratulations", "next round",
               "moved forward"]
    low := ["next steps", "proceeding", "qualifying"] }

/-- NEGATIVE_KEYWORDS, classifier.js lines 59-62. -/
def NEGATIVE_KEYWORDS : List String :=
  ["unsubscribe", "newsletter", "marketing", "promotional", "sale", "discount",
   "webinar registration", "course enrollment", "learn more", "free trial"]

/-- TRUSTED_SENDER_PATTERNS, classifier.js lines 65-70, applied to the already
lower-cased sender.  The two patterns containing `.*` use `dotStarTest`; all
other patterns are literal substring tests. -/
def trustedSender (fromL : List Char) : Bool :=
  occursIn "hr@".data fromL || occursIn "careers@".data fromL
    || occursIn "recruitment@".data fromL || occursIn "talent@".data fromL
    || occursIn "hiring@".data fromL
    || dotStarTest "noreply".data "placement".data fromL
    || dotStarTest "campus".data "team".data fromL
    || occursIn "@naukri.com".data fromL || occursIn "@linkedin.com".data fromL
    || occursIn "@monster.com".data fromL || occursIn "@indeed.com".data fromL
    || occursIn "@internshala.com".data fromL
    || occursIn "@hackerrank.com".data fromL
    || occursIn "@hackerearth.com".data fromL
    || occursIn "@codility.com".data fromL || occursIn "@mettl.com".data fromL

/-- AI_THRESHOLD_LOW, classifier.js line 73. -/
def AI_THRESHOLD_LOW : Nat := 3

/-- AI_THRESHOLD_HIGH, classifier.js line 74. -/
def AI_THRESHOLD_HIGH : Nat := 8

/-! ## Tier 1: keyword classification (classifier.js lines 131-215) -/

/-- The lower-cased scan text built from subject, snippet and body
(the template literal on line 132). -/
def textOf (e : Email) : List Char :=
  lowerList (e.subject ++ " " ++ e.snippet ++ " " ++ e.body).data

/-- The lower-cased sender (line 133). -/
def fromOf (e : Email) : List Char := lowerList e.fromAddr.data

/-- The negative-keyword penalty (lines 136-141): 2 points per matched
negative keyword. -/
def negativeScore (text : List Char) : Nat :=
  NEGATIVE_KEYWORDS.foldl (fun n kw => if occursIn kw.data text then n + 2 else n) 0

/-- The sender-trust bonus (lines 144-150): a flat 3 when any trusted pattern
matches (the JS loop breaks at the first match, which is equivalent). -/
def senderBonus (fromL : List Char) : Nat := if trustedSender fromL then 3 else 0

/-- One scoring pass over one keyword tier (the three inner loops of
lines 161-183): each matching keyword adds `pts` and is appended to the
matched-keyword list. -/
def tierFold (pts : Nat) (text : List Char) (acc : Nat × List String)
    (kws : List String) : Nat × List String :=
  kws.foldl
    (fun a kw => if occursIn kw.data text then (a.1 + pts, a.2 ++ [kw]) else a)
    acc

/-- The full per-category score (lines 157-191): high/medium/low passes, then
the sender bonus is added and the negative penalty subtracted, floored at 0
(`Math.max(0, score - negativeScore)` is truncated subtraction on `Nat`). -/
def scoreCat (text : List Char) (bonus neg : Nat) (kws : KwTiers) :
    Nat × List String :=
  let a1 := tierFold 3 text (0, []) kws.high
  let a2 := tierFold 2 text a1 kws.medium
  let a3 := tierFold 1 text a2 kws.low
  (a3.1 + bonus - neg, a3.2)

/-- The fixed enumeration order of `Object.entries(KEYWORD_SCORES)`
(insertion order of the object literal). -/
def categoryOrder : List Category :=
  [.PLACEMENT_DRIVE, .INTERVIEW, .ASSESSMENT, .SHORTLISTED]

/-- The keyword table of each scored category. -/
def kwFor : Category → KwTiers
  | .PLACEMENT_DRIVE => placementDriveKws
  | .INTERVIEW => interviewKws
  | .ASSESSMENT => assessmentKws
  | .SHORTLISTED => shortlistedKws
  | .OTHER => { high := [], medium := [], low := [] }

/-- All of a category's keywords, across the three tiers. -/
def allKeywords (c : Category) : List String :=
  (kwFor c).high ++ (kwFor c).medium ++ (kwFor c).low

/-- The `categoryScores` map of keywordClassify, in enumeration order:
category, final score, matched keywords. -/
def scoredFull (e : Email) : List (Category × Nat × List String) :=
  categoryOrder.map fun c =>
    (c, scoreCat (textOf e) (senderBonus (fromOf e)) (negativeScore (textOf e))
          (kwFor c))

/-- The (category, final score) pairs in enumeration order. -/
def scoredPairs (e : Email) : List (Category × Nat) :=
  (scoredFull e).map fun p => (p.1, p.2.1)

/-- One step of the winner fold (lines 193-196): a category replaces the
current maximum only when its score is strictly greater. -/
def pickStep (acc p : Category × Nat) : Category × Nat :=
  if acc.2 < p.2 then p else acc

/-- The winner fold over all scored categories, started from
(`OTHER`, 0) (lines 154-155). -/
def pickWinner (l : List (Category × Nat)) : Category × Nat :=
  l.foldl pickStep (Category.OTHER, 0)

/-- The result record of `keywordClassify`. -/
structure KWResult where
  important : Bool
  category : Category
  score : Nat
  reason : String
deriving DecidableEq

/-- The tail of keywordClassify after the per-category scoring (classifier.js
lines 193-214): winner fold, importance test, reason construction. -/
def assembleKW (scored : List (Category × Nat × List String)) : KWResult :=
  let winner := pickWinner (scored.map fun p => (p.1, p.2.1))
  let maxCategory := winner.1
  let maxScore := winner.2
  -- line 200: important = maxCategory !== OTHER && maxScore >= 2
  let important := decide (maxCategory ≠ Category.OTHER) && decide (2 ≤ maxScore)
  -- lines 203-206: categoryScores[maxCategory]?.matchedKeywords || []
  let matchedKws :=
    match scored.find? (fun p => p.1 = maxCategory) with
    | some p => p.2.2
    | none => []
  let reason :=
    if matchedKws.isEmpty then "No strong keyword matches"
    else "Matched keywords: " ++ String.intercalate ", " (matchedKws.take 3)
  { important := important, category := maxCategory, score := maxScore,
    reason := reason }

/-- keywordClassify, classifier.js lines 131-215. -/
def keywordClassify (e : Email) : KWResult :=
  assembleKW (scoredFull e)

/-! ## JSON values and `JSON.parse` (for parseAIResponse, classifier.js 306-350)

`JSON.parse` is the JavaScript built-in; it is modelled by a recursive-descent
parser of the JSON grammar over `List Char`, with a fuel argument bounding the
nesting depth (one level of nesting always consumes at least one character, so
`length + 1` fuel is never exhausted).  JSON numbers are modelled as exact
rationals. -/

/-- A JavaScript value produced by `JSON.parse`. -/
inductive JsValue
  | null
  | bool (b : Bool)
  | num (q : ℚ)
  | str (s : String)
  | arr (elems : List JsValue)
  | obj (fields : List (String × JsValue))

/-- JSON insignificant whitespace. -/
def isJsonWs (c : Char) : Bool :=
  decide (c = ' ') || decide (c = '\t') || decide (c = '\n') || decide (c = '\r')

/-- Drop leading JSON whitespace. -/
def skipWs : List Char → List Char
  | [] => []
  | c :: rest => if isJsonWs c then skipWs rest else c :: rest

/-- ASCII decimal digit test. -/
def isDig (c : Char) : Bool := decide ('0' ≤ c) && decide (c ≤ '9')

/-- Hexadecimal digit value. -/
def hexVal (c : Char) : Option Nat :=
  if isDig c then some (c.toNat - 48)
  else if decide ('a' ≤ c) && decide (c ≤ 'f') then some (c.toNat - 87)
  else if decide ('A' ≤ c) && decide (c ≤ 'F') then some (c.toNat - 55)
  else none

/-- Body of a JSON string after the opening quote: accumulates characters (in
reverse) until the closing quote, handling the JSON escapes.  A `\uXXXX`
escape becomes the character with that code (`Char.ofNat`'s fallback stands in
for JavaScript's lone-surrogate code units, which no classifier string ever
contains).  Raw control characters are a syntax error. -/
def parseStrBody : List Char → List Char → Option (String × List Char)
  | acc, '"' :: rest => some (String.mk acc.reverse, rest)
  | acc, '\\' :: '"' :: rest => parseStrBody ('"' :: acc) rest
  | acc, '\\' :: '\\' :: rest => parseStrBody ('\\' :: acc) rest
  | acc, '\\' :: '/' :: rest => parseStrBody ('/' :: acc) rest
  | acc, '\\' :: 'b' :: rest => parseStrBody (Char.ofNat 8 :: acc) rest
  | acc, '\\' :: 'f' :: rest => parseStrBody (Char.ofNat 12 :: acc) rest
  | acc, '\\' :: 'n' :: rest => parseStrBody ('\n' :: acc) rest
  | acc, '\\' :: 'r' :: rest => parseStrBody ('\r' :: acc) rest
  | acc, '\\' :: 't' :: rest => parseStrBody ('\t' :: acc) rest
  | acc, '\\' :: 'u' :: a :: b :: c :: d :: rest =>
    match hexVal a, hexVal b, hexVal c, hexVal d with
    | some ha, some hb, some hc, some hd =>
      parseStrBody (Char.ofNat (((ha * 16 + hb) * 16 + hc) * 16 + hd) :: acc) rest
    | _, _, _, _ => none
  | _, '\\' :: _ => none
  | acc, c :: rest => if c.toNat < 32 then none else parseStrBody (c :: acc) rest
  | _, [] => none

/-- Consume a run of decimal digits, returning value, digit count, rest. -/
def takeDigits (v cnt : Nat) : List Char → Nat × Nat × List Char
  | [] => (v, cnt, [])
  | c :: rest =>
    if isDig c then takeDigits (v * 10 + (c.toNat - 48)) (cnt + 1) rest
    else (v, cnt, c :: rest)

/-- A JSON number (grammar: `-? int frac? exp?`), as an exact rational. -/
def parseNum (s : List Char) : Option (ℚ × List Char) :=
  let (neg, s1) := match s with
    | '-' :: rest => (true, rest)
    | _ => (false, s)
  match s1 with
  | '0' :: rest =>
    match rest with
    | c :: _ => if isDig c then none else parseNumTail neg 0 rest
    | [] => parseNumTail neg 0 []
  | c :: _ =>
    if isDig c then
      let (iv, _, s2) := takeDigits 0 0 s1
      parseNumTail neg iv s2
    else none
  | [] => none
where
  /-- Fraction and exponent part, applied to the integer value. -/
  parseNumTail (neg : Bool) (iv : Nat) (s : List Char) : Option (ℚ × List Char) :=
    let (fv, fc, s1) := match s with
      | '.' :: rest => takeDigits 0 0 rest
      | _ => (0, 0, s)
    let fracBad : Bool := match s with
      | '.' :: _ => decide (fc = 0)
      | _ => false
    if fracBad then none
    else
      let base : ℚ := (iv : ℚ) + (fv : ℚ) / ((10 : ℚ) ^ fc)
      let withSign := if neg then -base else base
      match s1 with
      | 'e' :: rest => parseExp withSign rest
      | 'E' :: rest => parseExp withSign rest
      | _ => some (withSign, s1)
  /-- Exponent part. -/
  parseExp (base : ℚ) (s : List Char) : Option (ℚ × List Char) :=
    let (eneg, s1) := match s with
      | '-' :: rest => (true, rest)
      | '+' :: rest => (false, rest)
      | _ => (false, s)
    let (ev, ec, s2) := takeDigits 0 0 s1
    if ec = 0 then none
    else if eneg then some (base / ((10 : ℚ) ^ ev), s2)
    else some (base * ((10 : ℚ) ^ ev), s2)

/-- Set a property on an object: replace in place or append (JavaScript
property-write semantics, so duplicate JSON keys resolve to the last one). -/
def setKey : List (String × JsValue) → String → JsValue → List (String × JsValue)
  | [], k, v => [(k, v)]
  | (k0, v0) :: rest, k, v =>
    if k0 = k then (k0, v) :: rest else (k0, v0) :: setKey rest k v

/-- Read a property of an object. -/
def jsGet : List (String × JsValue) → String → Option JsValue
  | [], _ => none
  | (k0, v0) :: rest, k => if k0 = k then some v0 else jsGet rest k

/-- Parser mode: a value, the elements of an array (accumulated in reverse),
or the members of an object. -/
inductive PMode
  | val
  | elems (acc : List JsValue)
  | members (acc : List (String × JsValue))

/-- JSON recursive-descent parser (fuel-bounded; one definition so that the
recursion is structural on the fuel).  `.val` parses one JSON value;
`.elems`/`.members` parse the non-empty tail of an array/object, with no
trailing comma allowed. -/
def parseCore : Nat → PMode → List Char → Option (JsValue × List Char)
  | 0, _, _ => none
  | Nat.succ fuel, .val, s =>
    (match skipWs s with
    | '{' :: rest =>
      match skipWs rest with
      | '}' :: r2 => some (.obj [], r2)
      | r1 => parseCore fuel (.members []) r1
    | '[' :: rest =>
      match skipWs rest with
      | ']' :: r2 => some (.arr [], r2)
      | r1 => parseCore fuel (.elems []) r1
    | '"' :: rest =>
      match parseStrBody [] rest with
      | some (str, r) => some (.str str, r)
      | none => none
    | 't' :: 'r' :: 'u' :: 'e' :: r => some (.bool true, r)
    | 'f' :: 'a' :: 'l' :: 's' :: 'e' :: r => some (.bool false, r)
    | 'n' :: 'u' :: 'l' :: 'l' :: r => some (.null, r)
    | c :: rest =>
      if decide (c = '-') || isDig c then
        match parseNum (c :: rest) with
        | some (q, r) => some (.num q, r)
        | none => none
      else none
    | [] => none)
  | Nat.succ fuel, .elems acc, s =>
    (match parseCore fuel .val s with
    | some (v, r) =>
      match skipWs r with
      | ',' :: r2 => parseCore fuel (.elems (v :: acc)) r2
      | ']' :: r2 => some (.arr (v :: acc).reverse, r2)
      | _ => none
    | none => none)
  | Nat.succ fuel, .members acc, s =>
    (match s with
    | '"' :: rest =>
      match parseStrBody [] rest with
      | some (key, r1) =>
        match skipWs r1 with
        | ':' :: r3 =>
          match parseCore fuel .val r3 with
          | some (v, r4) =>
            match skipWs r4 with
            | ',' :: r5 => parseCore fuel (.members (setKey acc key v)) (skipWs r5)
            | '}' :: r5 => some (.obj (setKey acc key v), r5)
            | _ => none
          | none => none
        | _ => none
      | none => none
    | _ => none)

/-- JSON value parser entry point. -/
def parseVal (fuel : Nat) (s : List Char) : Option (JsValue × List Char) :=
  parseCore fuel .val s

/-- `JSON.parse`: parse one JSON text, requiring only whitespace to remain. -/
def jsonParse (s : String) : Option JsValue :=
  match parseVal (2 * s.data.length + 2) s.data with
  | some (v, rest) => if (skipWs rest).isEmpty then some v else none
  | none => none

/-! ## parseAIResponse (classifier.js lines 306-350) -/

/-- `Object.values(CATEGORIES)`, classifier.js line 316. -/
def CATEGORY_NAMES : List String :=
  ["PLACEMENT_DRIVE", "INTERVIEW", "ASSESSMENT", "SHORTLISTED", "OTHER"]

/-- The field-defaulting block of parseAIResponse (lines 312-326), applied to
an object's property list.  Each check reads a property and, when it fails,
writes the default onto the object. -/
def validateObj (fields : List (String × JsValue)) : List (String × JsValue) :=
  let f1 := match jsGet fields "important" with
    | some (JsValue.bool _) => fields
    | _ => setKey fields "important" (.bool false)
  let f2 :=
    if (match jsGet f1 "category" with
        | some (JsValue.str s) => decide (s ∈ CATEGORY_NAMES)
        | _ => false)
    then f1 else setKey f1 "category" (.str "OTHER")
  let f3 := match jsGet f2 "confidence" with
    | some (JsValue.num q) =>
      if q < 0 ∨ 1 < q then setKey f2 "confidence" (.num (1 / 2)) else f2
    | _ => setKey f2 "confidence" (.num (1 / 2))
  match jsGet f3 "reason" with
  | some (JsValue.str _) => f3
  | _ => setKey f3 "reason" (.str "AI classification")

/-- The validation applied to a parsed value.  Reading `result.important` of
`null` throws a TypeError (`Except.error`); on an object the defaulting block
runs.  On a primitive, property reads give `undefined` and the sloppy-mode
property writes of lines 313-325 are silent no-ops, so the value comes back
unchanged (this is the actual CommonJS non-strict behaviour; an array would
keep its elements and acquire the four properties, which this model elides as
no claim concerns array responses). -/
def validateJs : JsValue → Except Unit JsValue
  | .null => .error ()
  | .obj fields => .ok (.obj (validateObj fields))
  | v => .ok v

/-- First index of a character. -/
def firstIdx (c : Char) : List Char → Option Nat
  | [] => none
  | x :: rest => if x = c then some 0 else (firstIdx c rest).map (· + 1)

/-- Last index of a character. -/
def lastIdx (c : Char) (l : List Char) : Option Nat :=
  (firstIdx c l.reverse).map (fun i => l.length - 1 - i)

/-- `responseText.match(/\{[\s\S]*\}/)` (line 331): the substring from the
first opening brace through the last closing brace after it, if any. -/
def extractBraces (s : List Char) : Option (List Char) :=
  match firstIdx '{' s, lastIdx '}' s with
  | some i, some j => if i < j then some ((s.drop i).take (j - i + 1)) else none
  | _, _ => none

/-- The fixed "unparseable" result of lines 343-348. -/
def aiDefaultResult : JsValue :=
  .obj [("important", .bool false), ("category", .str "OTHER"),
        ("confidence", .num 0), ("reason", .str "Failed to parse AI response")]

/-- parseAIResponse, classifier.js lines 306-350.  The fuel argument models
the JavaScript call stack: the extraction path re-enters parseAIResponse, and
when the extracted substring is the whole (still unparseable) text this
recursion only ends with a stack-overflow RangeError that the enclosing catch
turns into the default result — which is what fuel 0 returns.  Any fuel
greater than the text length gives the stable result. -/
def parseAIResponse : Nat → String → JsValue
  | 0, _ => aiDefaultResult
  | Nat.succ fuel, s =>
    match jsonParse s with
    | some v =>
      match validateJs v with
      | .ok r => r
      | .error _ =>
        match extractBraces s.data with
        | some m => parseAIResponse fuel (String.mk m)
        | none => aiDefaultResult
    | none =>
      match extractBraces s.data with
      | some m => parseAIResponse fuel (String.mk m)
      | none => aiDefaultResult

/-- A fully-populated, schema-valid classification result value: an object
whose `important` is a boolean, whose `category` is in the closed label set,
whose `confidence` is a number in [0,1], and whose `reason` is a string. -/
def schemaValidB : JsValue → Bool
  | .obj fields =>
    (match jsGet fields "important" with
      | some (JsValue.bool _) => true
      | _ => false)
    && (match jsGet fields "category" with
      | some (JsValue.str s) => decide (s ∈ CATEGORY_NAMES)
      | _ => false)
    && (match jsGet fields "confidence" with
      | some (JsValue.num q) => decide (0 ≤ q) && decide (q ≤ 1)
      | _ => false)
    && (match jsGet fields "reason" with
      | some (JsValue.str _) => true
      | _ => false)
  | _ => false

/-! ## classifyEmail (classifier.js lines 81-124) -/

/-- The final classification record handed to the provider sweep. -/
structure ClassificationResult where
  important : Bool
  category : Category
  confidence : ℚ
  reason : String
  method : Method
deriving DecidableEq

/-- Category of a label string (the inverse of the CATEGORIES values). -/
def categoryOfName (s : String) : Category :=
  if s = "PLACEMENT_DRIVE" then .PLACEMENT_DRIVE
  else if s = "INTERVIEW" then .INTERVIEW
  else if s = "ASSESSMENT" then .ASSESSMENT
  else if s = "SHORTLISTED" then .SHORTLISTED
  else .OTHER

/-- `{ ...aiResult, method: 'ai' }` (lines 107-110) as a typed record.  A
validated object carries exactly the four schema fields.  A primitive result
(the parseAIResponse bug) spreads to an object whose classification fields
are all undefined; the sweep only tests truthiness of `important` (undefined
is falsy) and looks up the category preference (an undefined key counts as
enabled), so it is observationally the unimportant catch-all record below. -/
def aiToClassification (v : JsValue) : ClassificationResult :=
  match v with
  | .obj fields =>
    { important := match jsGet fields "important" with
        | some (JsValue.bool b) => b
        | _ => false
      category := match jsGet fields "category" with
        | some (JsValue.str s) => categoryOfName s
        | _ => .OTHER
      confidence := match jsGet fields "confidence" with
        | some (JsValue.num q) => q
        | _ => 0
      reason := match jsGet fields "reason" with
        | some (JsValue.str s) => s
        | _ => ""
      method := .ai }
  | _ =>
    { important := false, category := .OTHER, confidence := 0, reason := "",
      method := .ai }

/-- The keyword-tier record returned on the two non-AI paths of classifyEmail
(lines 94-100 with method `keyword`, lines 117-123 with `keyword_fallback`). -/
def keywordResult (kr : KWResult) (m : Method) : ClassificationResult :=
  { important := kr.important, category := kr.category,
    confidence := min ((kr.score : ℚ) / 10) 1, reason := kr.reason, method := m }

/-- classifyEmail, classifier.js lines 81-124.  `gemini` models whether
`process.env.GEMINI_API_KEY` is set; `aiRaw` models the Gemini transport of
aiClassify (lines 222-268): `Except.error` is a thrown axios/API error,
`.ok none` is a response with no text (which aiClassify turns into a thrown
"Empty response" error), and `.ok (some txt)` is a response whose text is fed
to parseAIResponse.  Both error cases are caught at line 111 and fall back to
the keyword result. -/
def classifyEmail (gemini : Bool) (aiRaw : Email → Except Unit (Option String))
    (e : Email) : ClassificationResult :=
  let kr := keywordClassify e
  if AI_THRESHOLD_HIGH ≤ kr.score ∨ kr.score ≤ AI_THRESHOLD_LOW then
    keywordResult kr .keyword
  else if gemini then
    match aiRaw e with
    | .ok (some txt) => aiToClassification (parseAIResponse (txt.data.length + 1) txt)
    | .ok none => keywordResult kr .keyword_fallback
    | .error _ => keywordResult kr .keyword_fallback
  else
    keywordResult kr .keyword_fallback

/-! ## Document model (models/index.js) and database helper operations -/

/-- `settings.categories` of a user (each key defaults to true in the schema;
`none` models an absent key on a raw document). -/
structure CatPrefs where
  placementDrive : Option Bool
  interview : Option Bool
  assessment : Option Bool
  shortlisted : Option Bool
deriving DecidableEq

/-- `user.settings.categories[category]`; the schema has no OTHER key, so an
OTHER lookup is `undefined` (`none`). -/
def catPref (cp : CatPrefs) : Category → Option Bool
  | .PLACEMENT_DRIVE => cp.placementDrive
  | .INTERVIEW => cp.interview
  | .ASSESSMENT => cp.assessment
  | .SHORTLISTED => cp.shortlisted
  | .OTHER => none

/-- `user.settings`. -/
structure Settings where
  notificationsEnabled : Bool
  categories : CatPrefs
deriving DecidableEq

/-- One provider's configuration under `user.providers`. -/
structure ProviderCfg where
  enabled : Bool
  refreshToken : Option String
  lastError : Option String
  lastErrorAt : Option Int
deriving DecidableEq

/-- A User document (models/index.js userSchema), restricted to the fields the
pipeline reads or writes. -/
structure UserDoc where
  telegramChatId : String
  firstName : String
  gmailCfg : ProviderCfg
  outlookCfg : ProviderCfg
  settings : Settings
  lastCheckedGmail : Option Int
  lastCheckedOutlook : Option Int
  lastFailureAlertGmail : Option Int
  lastFailureAlertOutlook : Option Int
  isActive : Bool
deriving DecidableEq

/-- `user.providers[provider]`. -/
def UserDoc.providerCfg (u : UserDoc) : Provider → ProviderCfg
  | .gmail => u.gmailCfg
  | .outlook => u.outlookCfg

/-- `user.lastChecked[provider]`. -/
def UserDoc.lastChecked (u : UserDoc) : Provider → Option Int
  | .gmail => u.lastCheckedGmail
  | .outlook => u.lastCheckedOutlook

/-- `user.lastFailureAlert[provider]`. -/
def UserDoc.lastFailureAlert (u : UserDoc) : Provider → Option Int
  | .gmail => u.lastFailureAlertGmail
  | .outlook => u.lastFailureAlertOutlook

/-- `$set lastChecked.<provider> = now`. -/
def UserDoc.setLastChecked (u : UserDoc) (p : Provider) (t : Int) : UserDoc :=
  match p with
  | .gmail => { u with lastCheckedGmail := some t }
  | .outlook => { u with lastCheckedOutlook := some t }

/-- `$set lastFailureAlert.<provider> = now`. -/
def UserDoc.setLastFailureAlert (u : UserDoc) (p : Provider) (t : Int) : UserDoc :=
  match p with
  | .gmail => { u with lastFailureAlertGmail := some t }
  | .outlook => { u with lastFailureAlertOutlook := some t }

/-- A provider configuration with the last-error fields stamped. -/
def ProviderCfg.withError (c : ProviderCfg) (e : String) (t : Int) : ProviderCfg :=
  { c with lastError := some e, lastErrorAt := some t }

/-- `$set providers.<provider>.lastError / lastErrorAt`. -/
def UserDoc.setLastError (u : UserDoc) (p : Provider) (e : String) (t : Int) :
    UserDoc :=
  match p with
  | .gmail => { u with gmailCfg := u.gmailCfg.withError e t }
  | .outlook => { u with outlookCfg := u.outlookCfg.withError e t }

/-- An Email document (models/index.js emailSchema), restricted to the fields
the pipeline reads or writes. -/
structure EmailDoc where
  telegramChatId : String
  provider : Provider
  messageId : String
  uniqueId : String
  subject : String
  fromAddr : String
  snippet : String
  body : String
  classification : Option ClassificationResult
  notified : Bool
  notifiedAt : Option Int
deriving DecidableEq

/-- The database state: the Users and Emails collections. -/
structure DBState where
  users : List UserDoc
  emails : List EmailDoc
deriving DecidableEq

/-- `uniqueId = provider + "_" + messageId` (database helper saveEmail). -/
def uidOf (p : Provider) (mid : String) : String :=
  providerName p ++ "_" ++ mid

/-- getActiveUsers (database helper): active users having at least one enabled
provider.  (The query does not mention `settings.notificationsEnabled`.) -/
def getActiveUsers (users : List UserDoc) : List UserDoc :=
  users.filter fun u =>
    u.isActive && (u.gmailCfg.enabled || u.outlookCfg.enabled)

/-- `User.findOne({telegramChatId})`: the first match. -/
def findUser (users : List UserDoc) (chatId : String) : Option UserDoc :=
  users.find? fun u => decide (u.telegramChatId = chatId)

/-- `User.updateOne({telegramChatId}, ...)`: update the first match (chat ids
are unique-indexed, so at most one document matches anyway). -/
def updateFirstUser : List UserDoc → String → (UserDoc → UserDoc) → List UserDoc
  | [], _, _ => []
  | u :: rest, chatId, f =>
    if u.telegramChatId = chatId then f u :: rest
    else u :: updateFirstUser rest chatId f

/-- updateLastChecked (database helper): stamp `lastChecked[provider]` with
the current time. -/
def updateLastChecked (chatId : String) (p : Provider) (now : Int)
    (db : DBState) : DBState :=
  { db with users := updateFirstUser db.users chatId fun u =>
      u.setLastChecked p now }

/-- recordProviderError (database helper). -/
def recordProviderError (chatId : String) (p : Provider) (err : String)
    (now : Int) (db : DBState) : DBState :=
  { db with users := updateFirstUser db.users chatId fun u =>
      u.setLastError p err now }

/-- FAILURE_ALERT_COOLDOWN_MS (database helper line 11): 2 hours. -/
def FAILURE_ALERT_COOLDOWN_MS : Int := 2 * 60 * 60 * 1000

/-- canSendFailureAlert (database helper lines 154-162). -/
def canSendFailureAlert (chatId : String) (p : Provider) (now : Int)
    (db : DBState) : Bool :=
  match findUser db.users chatId with
  | none => false
  | some u =>
    match u.lastFailureAlert p with
    | none => true
    | some t => decide (FAILURE_ALERT_COOLDOWN_MS ≤ now - t)

/-- recordFailureAlert (database helper lines 169-174). -/
def recordFailureAlert (chatId : String) (p : Provider) (now : Int)
    (db : DBState) : DBState :=
  { db with users := updateFirstUser db.users chatId fun u =>
      u.setLastFailureAlert p now }

/-- isEmailNotified (database helper lines 185-193): an Email document exists
for this chat, provider and messageId with `notified: true`. -/
def isEmailNotified (chatId : String) (p : Provider) (mid : String)
    (db : DBState) : Bool :=
  db.emails.any fun d =>
    decide (d.telegramChatId = chatId) && decide (d.provider = p)
      && decide (d.messageId = mid) && d.notified

/-- The Email document inserted by saveEmail's upsert when no document with
the `uniqueId` exists. -/
def newEmailDoc (user : UserDoc) (em : Email) (cls : ClassificationResult)
    (now : Int) : EmailDoc :=
  { telegramChatId := user.telegramChatId, provider := em.provider,
    messageId := em.messageId, uniqueId := uidOf em.provider em.messageId,
    subject := em.subject, fromAddr := em.fromAddr, snippet := em.snippet,
    body := em.body, classification := some cls, notified := true,
    notifiedAt := some now }

/-- The `$set` part of the saveEmail upsert applied to an existing document:
classification, `notified: true`, notifiedAt; the `$setOnInsert` identity
fields are left alone. -/
def EmailDoc.markNotified (d : EmailDoc) (cls : ClassificationResult)
    (now : Int) : EmailDoc :=
  { d with classification := some cls, notified := true, notifiedAt := some now }

/-- The Emails-collection effect of saveEmail's
`findOneAndUpdate({uniqueId}, ..., {upsert: true})`: the first document with
the `uniqueId` gets the `$set` fields, and if none exists a fresh document is
inserted. -/
def saveEmailList (user : UserDoc) (em : Email) (cls : ClassificationResult)
    (now : Int) (uid : String) : List EmailDoc → List EmailDoc
  | [] => [newEmailDoc user em cls now]
  | d :: rest =>
    if d.uniqueId = uid then d.markNotified cls now :: rest
    else d :: saveEmailList user em cls now uid rest

/-- saveEmail (database helper lines 202-240). -/
def saveEmail (user : UserDoc) (em : Email) (cls : ClassificationResult)
    (now : Int) (db : DBState) : DBState :=
  { db with emails :=
      saveEmailList user em cls now (uidOf em.provider em.messageId) db.emails }

/-! ## Windowing and the provider sweep (logger.js server part) -/

/-- DEFAULT_LOOKBACK_MINUTES (line 125). -/
def DEFAULT_LOOKBACK_MINUTES : Int := 30

/-- The lookback window in milliseconds. -/
def lookbackMs : Int := DEFAULT_LOOKBACK_MINUTES * 60 * 1000

/-- getSinceTimestamp (lines 158-167): `max(lastChecked, now − 30min)` when a
checkpoint exists, else `now − 30min`. -/
def getSinceTimestamp (u : UserDoc) (p : Provider) (now : Int) : Int :=
  match u.lastChecked p with
  | some t => max t (now - lookbackMs)
  | none => now - lookbackMs

/-- Observable events of the per-message loop, tagged with the message
identity `(provider, messageId)`: a message reached classification, a
notification delivery succeeded, the notification record was written. -/
inductive Ev
  | classified (p : Provider) (mid : String)
  | delivered (p : Provider) (mid : String)
  | saved (p : Provider) (mid : String)
deriving DecidableEq

/-- The per-message counters accumulated by the loop. -/
structure PCounts where
  importantFound : Nat
  notificationsSent : Nat
deriving DecidableEq

/-- The external collaborators of one run: whether GEMINI_API_KEY is set, the
Gemini transport, the two fetch adapters (provider, refreshToken, since), the
bot's sendEmailNotification and sendFailureAlert.  A thrown JS exception is an
`Except.error`. -/
structure Oracles where
  gemini : Bool
  aiRaw : Email → Except Unit (Option String)
  fetch : Provider → String → Int → Except String (List Email)
  send : String → Email → ClassificationResult → Except Unit Bool
  sendAlert : String → Provider → String → Except Unit Bool

/-- JavaScript truthiness of an optional refresh token (`null` and the empty
string are falsy). -/
def tokenTruthy : Option String → Bool
  | none => false
  | some t => decide (t ≠ "")

/-- The body of the per-message loop of processProvider (logger.js lines
242-272): idempotency check, classification, category preference, delivery,
and — only on confirmed delivery — the ledger write.  The surrounding
try/catch turns a thrown delivery call into a logged skip, keeping the
`importantFound` increment that already happened. -/
def processOneEmail (o : Oracles) (user : UserDoc) (p : Provider) (now : Int)
    (db : DBState) (em : Email) : PCounts × DBState × List Ev :=
  if isEmailNotified user.telegramChatId p em.messageId db then
    (⟨0, 0⟩, db, [])
  else
    let cls := classifyEmail o.gemini o.aiRaw em
    let categoryEnabled :=
      decide (catPref user.settings.categories cls.category ≠ some false)
    if cls.important && categoryEnabled then
      match o.send user.telegramChatId em cls with
      | .ok true =>
        (⟨1, 1⟩, saveEmail user em cls now db,
          [.classified em.provider em.messageId,
           .delivered em.provider em.messageId,
           .saved em.provider em.messageId])
      | .ok false => (⟨1, 0⟩, db, [.classified em.provider em.messageId])
      | .error _ => (⟨1, 0⟩, db, [.classified em.provider em.messageId])
    else
      (⟨0, 0⟩, db, [.classified em.provider em.messageId])

/-- The per-message loop over the fetched batch, in fetch order. -/
def processEmails (o : Oracles) (user : UserDoc) (p : Provider) (now : Int) :
    List Email → DBState → PCounts × DBState × List Ev
  | [], db => (⟨0, 0⟩, db, [])
  | em :: rest, db =>
    let r1 := processOneEmail o user p now db em
    let r2 := processEmails o user p now rest r1.2.1
    (⟨r1.1.importantFound + r2.1.importantFound,
      r1.1.notificationsSent + r2.1.notificationsSent⟩,
     r2.2.1, r1.2.2 ++ r2.2.2)

/-- The per-provider counters returned by processProvider. -/
structure ProviderResult where
  emailsScanned : Nat
  importantFound : Nat
  notificationsSent : Nat
deriving DecidableEq

/-- processProvider (logger.js lines 221-277).  A throwing fetch propagates
(`.error`) with the database untouched — in particular updateLastChecked has
not run; otherwise the batch is processed and the checkpoint is stamped with
the current time afterwards, unconditionally. -/
def processProvider (o : Oracles) (user : UserDoc) (p : Provider) (now : Int)
    (db : DBState) : Except String ProviderResult × DBState × List Ev :=
  let refreshToken := (user.providerCfg p).refreshToken.getD ""
  let sinceTimestamp := getSinceTimestamp user p now
  match o.fetch p refreshToken sinceTimestamp with
  | .error e => (.error e, db, [])
  | .ok emails =>
    let r := processEmails o user p now emails db
    let db2 := updateLastChecked user.telegramChatId p now r.2.1
    (.ok { emailsScanned := emails.length,
           importantFound := r.1.importantFound,
           notificationsSent := r.1.notificationsSent },
     db2, r.2.2)

/-- The outcome of handleProviderFailure: the database afterwards, whether an
alert delivery was attempted, and whether it reported success. -/
structure AlertOutcome where
  db : DBState
  attempted : Bool
  sent : Bool
deriving DecidableEq

/-- handleProviderFailure (logger.js lines 282-297): record the provider
error, consult the cooldown gate, attempt the alert if allowed, and stamp the
limiter only when the delivery call returned true.  A throwing alert delivery
is swallowed by the function's own catch, leaving the limiter unstamped. -/
def handleProviderFailure (o : Oracles) (chatId : String) (p : Provider)
    (errMsg : String) (now : Int) (db : DBState) : AlertOutcome :=
  let db1 := recordProviderError chatId p errMsg now db
  if canSendFailureAlert chatId p now db1 then
    match o.sendAlert chatId p errMsg with
    | .ok true =>
      { db := recordFailureAlert chatId p now db1, attempted := true,
        sent := true }
    | .ok false => { db := db1, attempted := true, sent := false }
    | .error _ => { db := db1, attempted := true, sent := false }
  else
    { db := db1, attempted := false, sent := false }

/-- The per-user result record of processUserEmails. -/
structure UserResult where
  name : String
  chatId : String
  emailsScanned : Nat
  importantFound : Nat
  notificationsSent : Nat
  errors : List String
deriving DecidableEq

/-- processUserEmails (logger.js lines 172-216): nothing runs when the user
paused notifications; otherwise each configured provider (enabled with a
truthy refresh token) is swept, and a provider failure is recorded and
alert-handled without aborting the other provider. -/
def processUserEmails (o : Oracles) (user : UserDoc) (now : Int)
    (db : DBState) : UserResult × DBState × List Ev :=
  let r0 : UserResult :=
    { name := user.firstName, chatId := user.telegramChatId,
      emailsScanned := 0, importantFound := 0, notificationsSent := 0,
      errors := [] }
  if !user.settings.notificationsEnabled then (r0, db, [])
  else
    let step1 : UserResult × DBState × List Ev :=
      if user.gmailCfg.enabled && tokenTruthy user.gmailCfg.refreshToken then
        match processProvider o user .gmail now db with
        | (.ok pr, db1, ev) =>
          ({ r0 with emailsScanned := r0.emailsScanned + pr.emailsScanned,
                     importantFound := r0.importantFound + pr.importantFound,
                     notificationsSent :=
                       r0.notificationsSent + pr.notificationsSent },
           db1, ev)
        | (.error e, db1, ev) =>
          let a := handleProviderFailure o user.telegramChatId .gmail e now db1
          ({ r0 with errors := r0.errors ++ ["gmail: " ++ e] }, a.db, ev)
      else (r0, db, [])
    let r1 := step1.1
    let step2 : UserResult × DBState × List Ev :=
      if user.outlookCfg.enabled && tokenTruthy user.outlookCfg.refreshToken then
        match processProvider o user .outlook now step1.2.1 with
        | (.ok pr, db2, ev) =>
          ({ r1 with emailsScanned := r1.emailsScanned + pr.emailsScanned,
                     importantFound := r1.importantFound + pr.importantFound,
                     notificationsSent :=
                       r1.notificationsSent + pr.notificationsSent },
           db2, ev)
        | (.error e, db2, ev) =>
          let a :=
            handleProviderFailure o user.telegramChatId .outlook e now db2
          ({ r1 with errors := r1.errors ++ ["outlook: " ++ e] }, a.db, ev)
      else (r1, step1.2.1, [])
    (step2.1, step2.2.1, step1.2.2 ++ step2.2.2)

/-- The run summary aggregated by the /cron/check route. -/
structure RunSummary where
  usersProcessed : Nat
  emailsScanned : Nat
  importantFound : Nat
  notificationsSent : Nat
  failures : Nat
deriving DecidableEq

/-- The per-user aggregation loop of the /cron/check route (logger.js lines
412-434).  In this model processUserEmails is total (all its internal throws
are caught in the JS as well), so every iterated user is counted in
`usersProcessed`. -/
def cronUsers (o : Oracles) (now : Int) :
    List UserDoc → DBState → RunSummary × DBState
  | [], db => (⟨0, 0, 0, 0, 0⟩, db)
  | u :: rest, db =>
    let r := processUserEmails o u now db
    let s := cronUsers o now rest r.2.1
    (⟨s.1.usersProcessed + 1,
      s.1.emailsScanned + r.1.emailsScanned,
      s.1.importantFound + r.1.importantFound,
      s.1.notificationsSent + r.1.notificationsSent,
      s.1.failures + r.1.errors.length⟩, s.2)

/-- The /cron/check route (logger.js lines 391-445): iterate the active users
and aggregate the run summary. -/
def cronCheck (o : Oracles) (now : Int) (db : DBState) : RunSummary × DBState :=
  cronUsers o now (getActiveUsers db.users) db

/-! ## Concrete sample data used by witnesses and counterexamples -/

/-- An AI transport that always throws (also used where the AI tier is not
exercised). -/
def noAI : Email → Except Unit (Option String) := fun _ => Except.error ()

/-- The email of the spec's worked scoring example (§8): subject
"Interview Schedule — Round 2", sender hr@acme-corp.com, body containing
"technical interview" and "zoom interview". -/
def eC6 : Email :=
  { provider := .gmail, messageId := "m6",
    subject := "Interview Schedule — Round 2",
    fromAddr := "hr@acme-corp.com", snippet := "",
    body := "Your technical interview will be conducted as a zoom interview." }

/-- A message whose keyword score is 8 (technical interview 3 + zoom
interview 3 + interview 2, untrusted sender): classified important on the
direct keyword path. -/
def eW : Email :=
  { provider := .gmail, messageId := "m1",
    subject := "technical interview zoom interview",
    fromAddr := "x@y.com", snippet := "", body := "" }

/-- A trusted-sender email with no keyword content at all. -/
def e10w : Email :=
  { provider := .gmail, messageId := "m2", subject := "hello",
    fromAddr := "hr@x.com", snippet := "", body := "" }

/-- An enabled provider configuration with a truthy refresh token. -/
def cfgOn : ProviderCfg :=
  { enabled := true, refreshToken := some "tok", lastError := none,
    lastErrorAt := none }

/-- A disabled provider configuration. -/
def cfgOff : ProviderCfg :=
  { enabled := false, refreshToken := none, lastError := none,
    lastErrorAt := none }

/-- All category preferences enabled (the schema defaults). -/
def prefsAll : CatPrefs :=
  { placementDrive := some true, interview := some true,
    assessment := some true, shortlisted := some true }

/-- A fully-enabled sample user with Gmail configured and no checkpoints. -/
def uW : UserDoc :=
  { telegramChatId := "chat1", firstName := "Asha", gmailCfg := cfgOn,
    outlookCfg := cfgOff,
    settings := { notificationsEnabled := true, categories := prefsAll },
    lastCheckedGmail := none, lastCheckedOutlook := none,
    lastFailureAlertGmail := none, lastFailureAlertOutlook := none,
    isActive := true }

/-- The sample user with a Gmail checkpoint at time 1000. -/
def uC3 : UserDoc := { uW with lastCheckedGmail := some 1000 }

/-- An active user with an enabled provider but notifications paused. -/
def u9 : UserDoc :=
  { uW with settings := { notificationsEnabled := false,
                          categories := prefsAll } }

/-- A database containing only the sample user and no email documents. -/
def db0W : DBState := { users := [uW], emails := [] }

/-- A database containing only the notifications-paused user. -/
def db9 : DBState := { users := [u9], emails := [] }

/-- Oracles: no Gemini key, Gmail fetch returns the single message `eW`,
deliveries succeed. -/
def oW : Oracles :=
  { gemini := false, aiRaw := noAI, fetch := fun _ _ _ => .ok [eW],
    send := fun _ _ _ => .ok true, sendAlert := fun _ _ _ => .ok true }

/-- Oracles whose fetch throws. -/
def oErr : Oracles := { oW with fetch := fun _ _ _ => .error "auth expired" }

/-- Oracles whose notification delivery returns false. -/
def oSendFail : Oracles := { oW with send := fun _ _ _ => .ok false }

/-- The spec's notion of an "active recipient", modelled from the spec's words
for comparison with `getActiveUsers` (§4.4: "active = has at least one
enabled provider and has notifications globally enabled" on an active user). -/
def specActiveUser (u : UserDoc) : Bool :=
  u.isActive && (u.gmailCfg.enabled || u.outlookCfg.enabled)
    && u.settings.notificationsEnabled

/-! ## Invariants for the at-most-once argument -/

/-- Well-formedness of the Emails collection: every document's `uniqueId` is
the one derived from its own provider and messageId — the shape every
saveEmail insert produces. -/
def emailsWF (db : DBState) : Prop :=
  ∀ d ∈ db.emails, d.uniqueId = uidOf d.provider d.messageId

/-- No document carries the `uniqueId` of the (provider, messageId) key: the
message has never been recorded. -/
def freshKey (db : DBState) (p : Provider) (mid : String) : Prop :=
  ∀ d ∈ db.emails, d.uniqueId ≠ uidOf p mid

/-- The notified state of a (recipient, provider, messageId) key: exactly one
document carries the key's `uniqueId`, and the idempotency check answers
true for the recipient. -/
def notifiedState (db : DBState) (chatId : String) (p : Provider)
    (mid : String) : Prop :=
  (db.emails.filter fun d => decide (d.uniqueId = uidOf p mid)).length = 1 ∧
  isEmailNotified chatId p mid db = true

/-! ## Theorems -/

/-- Claim C3: for every user, provider, and fixed current time `now`,
getSinceTimestamp returns `max(lastChecked, now − 30 minutes)` when a
checkpoint exists and `now − 30 minutes` when none exists; being a pure
function of these inputs it is deterministic, and the returned lower bound
never precedes `now − 30 minutes`. -/
theorem c3_window_computation (u : UserDoc) (p : Provider) (now : Int) :
    (∀ t, u.lastChecked p = some t →
        getSinceTimestamp u p now = max t (now - lookbackMs)) ∧
    (u.lastChecked p = none →
        getSinceTimestamp u p now = now - lookbackMs) ∧
    now - lookbackMs ≤ getSinceTimestamp u p now := by
  refine ⟨fun t ht => ?_, fun h => ?_, ?_⟩
  · simp [getSinceTimestamp, ht]
  · simp [getSinceTimestamp, h]
  · cases h : u.lastChecked p with
    | none => simp [getSinceTimestamp, h]
    | some t => simp [getSinceTimestamp, h, le_max_right]

/-- Witness for C3: the concrete user with checkpoint 1000, at time 5000. -/
theorem c3_window_computation_witness :
    getSinceTimestamp uC3 Provider.gmail 5000 = max 1000 (5000 - lookbackMs) :=
  (c3_window_computation uC3 Provider.gmail 5000).1 1000 rfl

/-! ### The winner fold of keywordClassify -/

/-- Specification of the maximum-score fold: the accumulator only grows, the
result bounds every list entry, and the result is either the accumulator or a
list entry that strictly beat the accumulator and strictly beats every entry
before it. -/
theorem pickFold_spec (l : List (Category × Nat)) (acc : Category × Nat) :
    acc.2 ≤ (l.foldl pickStep acc).2 ∧
    (∀ q ∈ l, q.2 ≤ (l.foldl pickStep acc).2) ∧
    (l.foldl pickStep acc = acc ∨
      ∃ i, ∃ h : i < l.length,
        l.get ⟨i, h⟩ = l.foldl pickStep acc ∧
        acc.2 < (l.foldl pickStep acc).2 ∧
        ∀ j, ∀ hj : j < l.length, j < i →
          (l.get ⟨j, hj⟩).2 < (l.foldl pickStep acc).2) := by
  induction l generalizing acc with
  | nil => simp
  | cons q t ih =>
    simp only [List.foldl_cons]
    by_cases hq : acc.2 < q.2
    · have hstep : pickStep acc q = q := by simp [pickStep, hq]
      rw [hstep]
      rcases ih q with ⟨hle, hall, hcase⟩
      refine ⟨le_trans (le_of_lt hq) hle, ?_, ?_⟩
      · intro r hr
        rcases List.mem_cons.mp hr with rfl | hr
        · exact hle
        · exact hall r hr
      · rcases hcase with heq | ⟨i, hi, hget, hlt, hbefore⟩
        · refine Or.inr ⟨0, by simp, ?_, ?_, ?_⟩
          · simpa using heq.symm
          · rw [heq]; exact hq
          · intro j hj hj0; omega
        · refine Or.inr ⟨i + 1, by simpa using hi, by simpa using hget, ?_, ?_⟩
          · exact lt_of_lt_of_le hq hle
          · intro j hj hji
            cases j with
            | zero => simpa using hlt
            | succ j0 =>
              have hj0 : j0 < t.length := by simpa using hj
              have := hbefore j0 hj0 (by omega)
              simpa using this
    · have hstep : pickStep acc q = acc := by simp [pickStep, hq]
      rw [hstep]
      rcases ih acc with ⟨hle, hall, hcase⟩
      refine ⟨hle, ?_, ?_⟩
      · intro r hr
        rcases List.mem_cons.mp hr with rfl | hr
        · exact le_trans (le_of_not_lt hq) hle
        · exact hall r hr
      · rcases hcase with heq | ⟨i, hi, hget, hlt, hbefore⟩
        · exact Or.inl heq
        · refine Or.inr ⟨i + 1, by simpa using hi, by simpa using hget, hlt, ?_⟩
          intro j hj hji
          cases j with
          | zero => simpa using lt_of_le_of_lt (le_of_not_lt hq) hlt
          | succ j0 =>
            have hj0 : j0 < t.length := by simpa using hj
            have := hbefore j0 hj0 (by omega)
            simpa using this

/-- The winner projections of keywordClassify are the winner fold over the
scored category pairs. -/
theorem keywordClassify_winner (e : Email) :
    (keywordClassify e).category = (pickWinner (scoredPairs e)).1 ∧
    (keywordClassify e).score = (pickWinner (scoredPairs e)).2 :=
  ⟨rfl, rfl⟩

/-- Every scored pair carries one of the four real categories, never OTHER. -/
theorem scoredPairs_not_other (e : Email) :
    ∀ q ∈ scoredPairs e, q.1 ≠ Category.OTHER := by
  intro q hq
  simp only [scoredPairs, scoredFull, categoryOrder, List.map_map,
    List.mem_map, List.mem_cons, List.not_mem_nil, or_false] at hq
  rcases hq with ⟨c, hc, rfl⟩
  rcases hc with rfl | rfl | rfl | rfl <;> simp

/-- The direct keyword path of classifyEmail: when the Tier-1 score is at or
above the high threshold or at or below the low threshold, the result is the
keyword record with method `keyword`. -/
theorem classifyEmail_keyword_path (gemini : Bool)
    (aiRaw : Email → Except Unit (Option String)) (e : Email)
    (h : AI_THRESHOLD_HIGH ≤ (keywordClassify e).score ∨
      (keywordClassify e).score ≤ AI_THRESHOLD_LOW) :
    classifyEmail gemini aiRaw e = keywordResult (keywordClassify e) .keyword := by
  unfold classifyEmail
  exact if_pos h

/-- Claim C5: keywordClassify's winner has the maximal final score among the
categories (scored in the fixed order PLACEMENT_DRIVE, INTERVIEW, ASSESSMENT,
SHORTLISTED, with sender bonus added and negative penalty subtracted floored
at 0 inside each pair of `scoredPairs`); the result is OTHER exactly when no
category scores above 0; ties keep the first-encountered category (every
earlier category scores strictly less than the winner); `important` is true
exactly when the category is not OTHER and the winning score is at least 2;
and on the keyword path classifyEmail's confidence is `min(score/10, 1)`. -/
theorem c5_keyword_postcondition (e : Email) :
    (∀ q ∈ scoredPairs e, q.2 ≤ (keywordClassify e).score) ∧
    ((keywordClassify e).category = Category.OTHER ↔
      ∀ q ∈ scoredPairs e, q.2 = 0) ∧
    ((keywordClassify e).category ≠ Category.OTHER →
      ∃ i, ∃ h : i < (scoredPairs e).length,
        (scoredPairs e).get ⟨i, h⟩
            = ((keywordClassify e).category, (keywordClassify e).score) ∧
        ∀ j, ∀ hj : j < (scoredPairs e).length, j < i →
          ((scoredPairs e).get ⟨j, hj⟩).2 < (keywordClassify e).score) ∧
    ((keywordClassify e).important
      = (decide ((keywordClassify e).category ≠ Category.OTHER)
          && decide (2 ≤ (keywordClassify e).score))) ∧
    (∀ gemini aiRaw,
      AI_THRESHOLD_HIGH ≤ (keywordClassify e).score ∨
        (keywordClassify e).score ≤ AI_THRESHOLD_LOW →
      (classifyEmail gemini aiRaw e).confidence
          = min (((keywordClassify e).score : ℚ) / 10) 1 ∧
      (classifyEmail gemini aiRaw e).method = Method.keyword) := by
  obtain ⟨hcat, hscore⟩ := keywordClassify_winner e
  obtain ⟨hacc, hall, hcase⟩ := pickFold_spec (scoredPairs e) (Category.OTHER, 0)
  have hwin : pickWinner (scoredPairs e)
      = (scoredPairs e).foldl pickStep (Category.OTHER, 0) := rfl
  refine ⟨?_, ⟨?_, ?_⟩, ?_, ?_, ?_⟩
  · intro q hq
    rw [hscore, hwin]
    exact hall q hq
  · intro hOther q hq
    rcases hcase with heq | ⟨i, hi, hget, hlt, _⟩
    · have h0 : ((scoredPairs e).foldl pickStep (Category.OTHER, 0)).2 = 0 := by
        rw [heq]
      have := hall q hq
      omega
    · exfalso
      have hmem : (scoredPairs e).foldl pickStep (Category.OTHER, 0)
          ∈ scoredPairs e := by
        rw [← hget]; exact List.get_mem _ i hi
      refine scoredPairs_not_other e _ hmem ?_
      rw [← hwin, ← hcat]
      exact hOther
  · intro hzero
    rcases hcase with heq | ⟨i, hi, hget, hlt, _⟩
    · rw [hcat, hwin, heq]
    · exfalso
      have hmem : (scoredPairs e).foldl pickStep (Category.OTHER, 0)
          ∈ scoredPairs e := by
        rw [← hget]; exact List.get_mem _ i hi
      have h0 := hzero _ hmem
      simp only [] at hlt
      omega
  · intro hne
    rcases hcase with heq | ⟨i, hi, hget, hlt, hbefore⟩
    · exact absurd (by rw [hcat, hwin, heq]) hne
    · refine ⟨i, hi, ?_, ?_⟩
      · rw [hcat, hscore, hwin, Prod.mk.eta]
        exact hget
      · intro j hj hji
        rw [hscore, hwin]
        exact hbefore j hj hji
  · rfl
  · intro gemini aiRaw h
    rw [classifyEmail_keyword_path gemini aiRaw e h]
    exact ⟨rfl, rfl⟩

/-- Witness for C5: the concrete score-8 email takes the direct keyword path
with confidence `min(score/10, 1)`. -/
theorem c5_keyword_postcondition_witness :
    (classifyEmail false noAI eW).confidence
        = min (((keywordClassify eW).score : ℚ) / 10) 1 ∧
    (classifyEmail false noAI eW).method = Method.keyword :=
  (c5_keyword_postcondition eW).2.2.2.2 false noAI (by decide)

/-- Claim C6 counterexample: on the spec's worked example (subject
"Interview Schedule — Round 2", sender hr@acme-corp.com, body containing
"technical interview" and "zoom interview") the Tier-1 score is 14, not 9 —
the subject itself also matches the high keyword "interview schedule" and the
medium keyword "interview" — and the keyword-path confidence is 1, not 0.9. -/
theorem c6_worked_example_counterexample :
    (keywordClassify eC6).score = 14 ∧ (keywordClassify eC6).score ≠ 9 ∧
    (classifyEmail false noAI eC6).confidence = 1 ∧
    (classifyEmail false noAI eC6).confidence ≠ 9 / 10 := by
  have hs : (keywordClassify eC6).score = 14 := by decide
  have hpath := classifyEmail_keyword_path false noAI eC6 (by decide)
  have hconf : (classifyEmail false noAI eC6).confidence
      = min (((keywordClassify eC6).score : ℚ) / 10) 1 := by
    rw [hpath]; rfl
  rw [hs] at hconf
  refine ⟨hs, by omega, ?_, ?_⟩
  · rw [hconf]; norm_num [min_def]
  · rw [hconf]; norm_num [min_def]

/-- Claim C6 amended: for the spec's worked example input, the Tier-1 score is
14 (high keywords "interview schedule", "technical interview" and
"zoom interview" at 3 points each, medium keyword "interview" at 2, plus the
sender-trust bonus of 3) and the classifier returns important = true,
category = INTERVIEW, method = keyword, confidence = 1.0. -/
theorem c6_worked_example_amended :
    keywordClassify eC6 =
      { important := true, category := Category.INTERVIEW, score := 14,
        reason :=
          "Matched keywords: interview schedule, technical interview, zoom interview" } ∧
    (classifyEmail false noAI eC6).important = true ∧
    (classifyEmail false noAI eC6).category = Category.INTERVIEW ∧
    (classifyEmail false noAI eC6).method = Method.keyword ∧
    (classifyEmail false noAI eC6).confidence = 1 := by
  have hrec : keywordClassify eC6 =
      { important := true, category := Category.INTERVIEW, score := 14,
        reason :=
          "Matched keywords: interview schedule, technical interview, zoom interview" } := by
    decide
  have hpath := classifyEmail_keyword_path false noAI eC6 (by decide)
  refine ⟨hrec, ?_, ?_, ?_, ?_⟩
  · rw [hpath]; show (keywordClassify eC6).important = true; rw [hrec]
  · rw [hpath]; show (keywordClassify eC6).category = Category.INTERVIEW
    rw [hrec]
  · rw [hpath]; rfl
  · rw [hpath]
    show min (((keywordClassify eC6).score : ℚ) / 10) 1 = 1
    rw [hrec]
    norm_num [min_def]

/-! ### Matching-free scoring lemmas (for claim C10) -/

/-- The negative-keyword fold leaves its accumulator unchanged when no listed
keyword occurs in the text. -/
theorem negFold_no_match (text : List Char) (l : List String) (n : Nat)
    (h : ∀ kw ∈ l, occursIn kw.data text = false) :
    l.foldl (fun n kw => if occursIn kw.data text then n + 2 else n) n = n := by
  induction l generalizing n with
  | nil => rfl
  | cons kw rest ih =>
    rw [List.foldl_cons, if_neg (by simp [h kw (List.mem_cons_self kw rest)])]
    exact ih n fun k hk => h k (List.mem_cons_of_mem kw hk)

/-- A tier pass leaves its accumulator unchanged when no tier keyword occurs
in the text. -/
theorem tierFold_no_match (pts : Nat) (text : List Char)
    (acc : Nat × List String) (kws : List String)
    (h : ∀ kw ∈ kws, occursIn kw.data text = false) :
    tierFold pts text acc kws = acc := by
  unfold tierFold
  induction kws generalizing acc with
  | nil => rfl
  | cons kw rest ih =>
    rw [List.foldl_cons, if_neg (by simp [h kw (List.mem_cons_self kw rest)])]
    exact ih acc fun k hk => h k (List.mem_cons_of_mem kw hk)

/-- Claim C10: an email whose scan text matches no category keyword and no
negative keyword but whose (lower-cased) sender matches a trusted pattern
scores the bare sender bonus 3 in every category, so the winner is
PLACEMENT_DRIVE — first in the enumeration order — with score 3, classified
important (never OTHER). -/
theorem c10_trusted_sender_no_keywords (e : Email)
    (hkw : ∀ c ∈ categoryOrder, ∀ kw ∈ allKeywords c,
      occursIn kw.data (textOf e) = false)
    (hneg : ∀ kw ∈ NEGATIVE_KEYWORDS, occursIn kw.data (textOf e) = false)
    (hsender : trustedSender (fromOf e) = true) :
    scoredPairs e = [(Category.PLACEMENT_DRIVE, 3), (Category.INTERVIEW, 3),
        (Category.ASSESSMENT, 3), (Category.SHORTLISTED, 3)] ∧
    keywordClassify e =
      { important := true, category := Category.PLACEMENT_DRIVE, score := 3,
        reason := "No strong keyword matches" } := by
  have hb : senderBonus (fromOf e) = 3 := by simp [senderBonus, hsender]
  have hn : negativeScore (textOf e) = 0 :=
    negFold_no_match (textOf e) NEGATIVE_KEYWORDS 0 hneg
  have hsc : ∀ c ∈ categoryOrder,
      scoreCat (textOf e) 3 0 (kwFor c) = (3, []) := by
    intro c hc
    have hk := hkw c hc
    have hhigh : ∀ kw ∈ (kwFor c).high, occursIn kw.data (textOf e) = false :=
      fun kw hkw2 => hk kw (by
        simp only [allKeywords, List.mem_append]
        exact Or.inl (Or.inl hkw2))
    have hmed : ∀ kw ∈ (kwFor c).medium, occursIn kw.data (textOf e) = false :=
      fun kw hkw2 => hk kw (by
        simp only [allKeywords, List.mem_append]
        exact Or.inl (Or.inr hkw2))
    have hlow : ∀ kw ∈ (kwFor c).low, occursIn kw.data (textOf e) = false :=
      fun kw hkw2 => hk kw (by
        simp only [allKeywords, List.mem_append]
        exact Or.inr hkw2)
    simp only [scoreCat]
    rw [tierFold_no_match 3 _ _ _ hhigh, tierFold_no_match 2 _ _ _ hmed,
      tierFold_no_match 1 _ _ _ hlow]
    rfl
  have h1 := hsc Category.PLACEMENT_DRIVE (by simp [categoryOrder])
  have h2 := hsc Category.INTERVIEW (by simp [categoryOrder])
  have h3 := hsc Category.ASSESSMENT (by simp [categoryOrder])
  have h4 := hsc Category.SHORTLISTED (by simp [categoryOrder])
  have hsf : scoredFull e =
      [(Category.PLACEMENT_DRIVE, 3, []), (Category.INTERVIEW, 3, []),
       (Category.ASSESSMENT, 3, []), (Category.SHORTLISTED, 3, [])] := by
    simp only [scoredFull, categoryOrder, List.map_cons, List.map_nil, hb, hn]
    rw [h1, h2, h3, h4]
  constructor
  · show (scoredFull e).map (fun p => (p.1, p.2.1)) = _
    rw [hsf]
    decide
  · show assembleKW (scoredFull e) = _
    rw [hsf]
    decide

/-- Witness for C10: a keyword-free email from hr@x.com is classified
important PLACEMENT_DRIVE with score 3. -/
theorem c10_trusted_sender_no_keywords_witness :
    keywordClassify e10w =
      { important := true, category := Category.PLACEMENT_DRIVE, score := 3,
        reason := "No strong keyword matches" } :=
  (c10_trusted_sender_no_keywords e10w (by decide) (by decide) (by decide)).2

/-- parseAIResponse on "5" never recurses: any positive fuel gives the fuel-1
result (the first JSON.parse succeeds). -/
theorem parseAIResponse_five_fuel (fuel : Nat) :
    parseAIResponse (fuel + 1) "5" = parseAIResponse 1 "5" := by
  obtain ⟨q, hq⟩ : ∃ q, jsonParse "5" = some (JsValue.num q) := ⟨_, rfl⟩
  simp only [parseAIResponse, hq]
  rfl

/-- Claim C7, evaluated at the failing input "5": JSON.parse succeeds with the
primitive number 5, the sloppy-mode defaulting assignments of parseAIResponse
are silent no-ops on a primitive, and the bare number — not a fully-populated
schema-valid result object — is returned, at every stack depth. -/
theorem c7_malformed_ai_output_failing_input :
    (∃ q, parseAIResponse 2 "5" = JsValue.num q) ∧
    schemaValidB (parseAIResponse 2 "5") = false ∧
    (∀ fuel, schemaValidB (parseAIResponse (fuel + 1) "5") = false) := by
  refine ⟨⟨_, rfl⟩, rfl, fun fuel => ?_⟩
  rw [parseAIResponse_five_fuel]
  rfl

/-! ### User-document update lemmas -/

/-- setLastChecked does not change the chat id. -/
theorem chatId_setLastChecked (u : UserDoc) (p : Provider) (t : Int) :
    (u.setLastChecked p t).telegramChatId = u.telegramChatId := by
  cases p <;> rfl

/-- setLastFailureAlert does not change the chat id. -/
theorem chatId_setLastFailureAlert (u : UserDoc) (p : Provider) (t : Int) :
    (u.setLastFailureAlert p t).telegramChatId = u.telegramChatId := by
  cases p <;> rfl

/-- setLastError does not change the chat id. -/
theorem chatId_setLastError (u : UserDoc) (p : Provider) (e : String) (t : Int) :
    (u.setLastError p e t).telegramChatId = u.telegramChatId := by
  cases p <;> rfl

/-- setLastError does not change any failure-alert stamp. -/
theorem lastFailureAlert_setLastError (u : UserDoc) (p q : Provider)
    (e : String) (t : Int) :
    (u.setLastError q e t).lastFailureAlert p = u.lastFailureAlert p := by
  cases p <;> cases q <;> rfl

/-- setLastFailureAlert stamps the given provider. -/
theorem lastFailureAlert_set_same (u : UserDoc) (p : Provider) (t : Int) :
    (u.setLastFailureAlert p t).lastFailureAlert p = some t := by
  cases p <;> rfl

/-- setLastChecked stamps the given provider's checkpoint. -/
theorem lastChecked_set_same (u : UserDoc) (p : Provider) (t : Int) :
    (u.setLastChecked p t).lastChecked p = some t := by
  cases p <;> rfl

/-- Updating the first user with a chat-id-preserving function commutes with
the chat-id lookup. -/
theorem findUser_updateFirst (users : List UserDoc) (chatId : String)
    (f : UserDoc → UserDoc)
    (hpres : ∀ u, (f u).telegramChatId = u.telegramChatId) :
    findUser (updateFirstUser users chatId f) chatId
      = (findUser users chatId).map f := by
  induction users with
  | nil => rfl
  | cons u rest ih =>
    by_cases hc : u.telegramChatId = chatId
    · simp [updateFirstUser, findUser, hc, hpres u, List.find?]
    · simp only [updateFirstUser, if_neg hc]
      simp only [findUser, List.find?] at ih ⊢
      simp [hc, ih]

/-- Claim C8: on a provider-level failure, an outage alert is attempted iff no
alert was ever recorded for the (recipient, provider) pair or at least the
2-hour cooldown has elapsed since `lastFailureAlert`; it reports sent iff it
was attempted and the delivery call returned true; `lastFailureAlert` is
stamped with the current time exactly when delivery returned true and is
otherwise untouched; consequently, strictly within the 2-hour window after a
recorded alert no further alert is attempted. -/
theorem c8_failure_alert_cooldown (o : Oracles) (chatId : String) (p : Provider)
    (errMsg : String) (now : Int) (db : DBState) (u0 : UserDoc)
    (hu : findUser db.users chatId = some u0) :
    ((handleProviderFailure o chatId p errMsg now db).attempted = true ↔
      u0.lastFailureAlert p = none ∨
        ∃ t, u0.lastFailureAlert p = some t ∧
          FAILURE_ALERT_COOLDOWN_MS ≤ now - t) ∧
    ((handleProviderFailure o chatId p errMsg now db).sent = true ↔
      (handleProviderFailure o chatId p errMsg now db).attempted = true ∧
        o.sendAlert chatId p errMsg = Except.ok true) ∧
    (∀ u1, findUser (handleProviderFailure o chatId p errMsg now db).db.users
        chatId = some u1 →
      u1.lastFailureAlert p =
        if (handleProviderFailure o chatId p errMsg now db).sent then some now
        else u0.lastFailureAlert p) ∧
    (∀ t, u0.lastFailureAlert p = some t →
      now - t < FAILURE_ALERT_COOLDOWN_MS →
      (handleProviderFailure o chatId p errMsg now db).attempted = false) := by
  have hpresE : ∀ u : UserDoc,
      (UserDoc.setLastError u p errMsg now).telegramChatId = u.telegramChatId :=
    fun u => chatId_setLastError u p errMsg now
  have hpresA : ∀ u : UserDoc,
      (UserDoc.setLastFailureAlert u p now).telegramChatId
        = u.telegramChatId :=
    fun u => chatId_setLastFailureAlert u p now
  have hfind1 : findUser (recordProviderError chatId p errMsg now db).users
      chatId = some (u0.setLastError p errMsg now) := by
    simp only [recordProviderError]
    rw [findUser_updateFirst _ _ _ hpresE, hu]
    rfl
  have hfind2 : findUser (recordFailureAlert chatId p now
        (recordProviderError chatId p errMsg now db)).users chatId
      = some ((u0.setLastError p errMsg now).setLastFailureAlert p now) := by
    simp only [recordFailureAlert]
    rw [findUser_updateFirst _ _ _ hpresA, hfind1]
    rfl
  have hcan : canSendFailureAlert chatId p now
        (recordProviderError chatId p errMsg now db)
      = (match u0.lastFailureAlert p with
         | none => true
         | some t => decide (FAILURE_ALERT_COOLDOWN_MS ≤ now - t)) := by
    unfold canSendFailureAlert
    rw [hfind1]
    simp only [lastFailureAlert_setLastError]
  rcases hla : u0.lastFailureAlert p with _ | t0
  · rcases hs : o.sendAlert chatId p errMsg with e | b
    · have hcase : handleProviderFailure o chatId p errMsg now db =
          { db := recordProviderError chatId p errMsg now db,
            attempted := true, sent := false } := by
        simp [handleProviderFailure, hcan, hla, hs]
      refine ⟨iff_of_true (by simp [hcase]) (Or.inl rfl), ?_, ?_, ?_⟩
      · refine iff_of_false (by simp [hcase]) ?_
        rintro ⟨-, hok⟩
        exact Except.noConfusion hok
      · intro u1 hu1
        simp only [hcase] at hu1 ⊢
        rw [hfind1] at hu1
        cases hu1
        simp [lastFailureAlert_setLastError, hla]
      · intro t ht hlt
        exact Option.noConfusion ht
    · cases b
      · have hcase : handleProviderFailure o chatId p errMsg now db =
            { db := recordProviderError chatId p errMsg now db,
              attempted := true, sent := false } := by
          simp [handleProviderFailure, hcan, hla, hs]
        refine ⟨iff_of_true (by simp [hcase]) (Or.inl rfl), ?_, ?_, ?_⟩
        · refine iff_of_false (by simp [hcase]) ?_
          rintro ⟨-, hok⟩
          injection hok with hb
          exact Bool.noConfusion hb
        · intro u1 hu1
          simp only [hcase] at hu1 ⊢
          rw [hfind1] at hu1
          cases hu1
          simp [lastFailureAlert_setLastError, hla]
        · intro t ht hlt
          exact Option.noConfusion ht
      · have hcase : handleProviderFailure o chatId p errMsg now db =
            { db := recordFailureAlert chatId p now
                (recordProviderError chatId p errMsg now db),
              attempted := true, sent := true } := by
          simp [handleProviderFailure, hcan, hla, hs]
        refine ⟨iff_of_true (by simp [hcase]) (Or.inl rfl), ?_, ?_, ?_⟩
        · exact iff_of_true (by simp [hcase]) ⟨by simp [hcase], rfl⟩
        · intro u1 hu1
          simp only [hcase] at hu1 ⊢
          rw [hfind2] at hu1
          cases hu1
          simp [lastFailureAlert_set_same]
        · intro t ht hlt
          exact Option.noConfusion ht
  · by_cases hcool : FAILURE_ALERT_COOLDOWN_MS ≤ now - t0
    · have hb : decide (FAILURE_ALERT_COOLDOWN_MS ≤ now - t0) = true :=
        decide_eq_true hcool
      rcases hs : o.sendAlert chatId p errMsg with e | b
      · have hcase : handleProviderFailure o chatId p errMsg now db =
            { db := recordProviderError chatId p errMsg now db,
              attempted := true, sent := false } := by
          simp [handleProviderFailure, hcan, hla, hs, hb]
        refine ⟨iff_of_true (by simp [hcase]) (Or.inr ⟨t0, rfl, hcool⟩),
          ?_, ?_, ?_⟩
        · refine iff_of_false (by simp [hcase]) ?_
          rintro ⟨-, hok⟩
          exact Except.noConfusion hok
        · intro u1 hu1
          simp only [hcase] at hu1 ⊢
          rw [hfind1] at hu1
          cases hu1
          simp [lastFailureAlert_setLastError, hla]
        · intro t ht hlt
          injection ht with he
          subst he
          omega
      · cases b
        · have hcase : handleProviderFailure o chatId p errMsg now db =
              { db := recordProviderError chatId p errMsg now db,
                attempted := true, sent := false } := by
            simp [handleProviderFailure, hcan, hla, hs, hb]
          refine ⟨iff_of_true (by simp [hcase]) (Or.inr ⟨t0, rfl, hcool⟩),
            ?_, ?_, ?_⟩
          · refine iff_of_false (by simp [hcase]) ?_
            rintro ⟨-, hok⟩
            injection hok with hb2
            exact Bool.noConfusion hb2
          · intro u1 hu1
            simp only [hcase] at hu1 ⊢
            rw [hfind1] at hu1
            cases hu1
            simp [lastFailureAlert_setLastError, hla]
          · intro t ht hlt
            injection ht with he
            subst he
            omega
        · have hcase : handleProviderFailure o chatId p errMsg now db =
              { db := recordFailureAlert chatId p now
                  (recordProviderError chatId p errMsg now db),
                attempted := true, sent := true } := by
            simp [handleProviderFailure, hcan, hla, hs, hb]
          refine ⟨iff_of_true (by simp [hcase]) (Or.inr ⟨t0, rfl, hcool⟩),
            ?_, ?_, ?_⟩
          · exact iff_of_true (by simp [hcase]) ⟨by simp [hcase], rfl⟩
          · intro u1 hu1
            simp only [hcase] at hu1 ⊢
            rw [hfind2] at hu1
            cases hu1
            simp [lastFailureAlert_set_same]
          · intro t ht hlt
            injection ht with he
            subst he
            omega
    · have hb : decide (FAILURE_ALERT_COOLDOWN_MS ≤ now - t0) = false :=
        decide_eq_false hcool
      have hcase : handleProviderFailure o chatId p errMsg now db =
          { db := recordProviderError chatId p errMsg now db,
            attempted := false, sent := false } := by
        simp [handleProviderFailure, hcan, hla, hb]
      refine ⟨?_, ?_, ?_, ?_⟩
      · refine iff_of_false (by simp [hcase]) ?_
        rintro (h | ⟨t, ht, hc⟩)
        · exact Option.noConfusion h
        · injection ht with he
          subst he
          exact hcool hc
      · refine iff_of_false (by simp [hcase]) ?_
        rintro ⟨hat, -⟩
        simp [hcase] at hat
      · intro u1 hu1
        simp only [hcase] at hu1 ⊢
        rw [hfind1] at hu1
        cases hu1
        simp [lastFailureAlert_setLastError, hla]
      · intro t ht hlt
        simp [hcase]

/-- Witness for C8: for the sample user (no alert ever recorded) with a
successful alert delivery, the alert is attempted, reported sent, and the
limiter is stamped with the current time. -/
theorem c8_failure_alert_cooldown_witness :
    (handleProviderFailure oW "chat1" Provider.gmail "boom" 77 db0W).attempted
      = true ∧
    (handleProviderFailure oW "chat1" Provider.gmail "boom" 77 db0W).sent
      = true := by
  have h := c8_failure_alert_cooldown oW "chat1" Provider.gmail "boom" 77 db0W
    uW (by decide)
  refine ⟨h.1.mpr (Or.inl (by decide)), ?_⟩
  exact h.2.1.mpr ⟨h.1.mpr (Or.inl (by decide)), rfl⟩

/-- One loop step never touches the Users collection. -/
theorem processOneEmail_users (o : Oracles) (user : UserDoc) (p : Provider)
    (now : Int) (db : DBState) (em : Email) :
    (processOneEmail o user p now db em).2.1.users = db.users := by
  simp only [processOneEmail]
  split
  · rfl
  · split
    · split <;> rfl
    · rfl

/-- The whole per-message loop never touches the Users collection. -/
theorem processEmails_users (o : Oracles) (user : UserDoc) (p : Provider)
    (now : Int) (l : List Email) (db : DBState) :
    (processEmails o user p now l db).2.1.users = db.users := by
  induction l generalizing db with
  | nil => rfl
  | cons em rest ih =>
    show (processEmails o user p now rest
        (processOneEmail o user p now db em).2.1).2.1.users = db.users
    rw [ih, processOneEmail_users]

/-- Claim C2: for every (user, provider) sweep, if the fetch call throws the
error propagates out of processProvider with the database untouched (the
checkpoint is not advanced); if the fetch returns, the per-message loop
always completes (message-level failures are caught) and `lastChecked` is
then set to the current time. -/
theorem c2_checkpoint_advance (o : Oracles) (user : UserDoc) (p : Provider)
    (now : Int) (db : DBState) (u0 : UserDoc)
    (hu : findUser db.users user.telegramChatId = some u0) :
    (∀ msg, o.fetch p ((user.providerCfg p).refreshToken.getD "")
        (getSinceTimestamp user p now) = .error msg →
      processProvider o user p now db = (.error msg, db, [])) ∧
    (∀ l, o.fetch p ((user.providerCfg p).refreshToken.getD "")
        (getSinceTimestamp user p now) = .ok l →
      ∃ r db2 ev, processProvider o user p now db = (.ok r, db2, ev) ∧
        r.emailsScanned = l.length ∧
        ∃ u1, findUser db2.users user.telegramChatId = some u1 ∧
          u1.lastChecked p = some now) := by
  constructor
  · intro msg hf
    simp only [processProvider]
    rw [hf]
  · intro l hf
    have hpp : processProvider o user p now db
        = (.ok { emailsScanned := l.length,
                 importantFound :=
                   (processEmails o user p now l db).1.importantFound,
                 notificationsSent :=
                   (processEmails o user p now l db).1.notificationsSent },
           updateLastChecked user.telegramChatId p now
             (processEmails o user p now l db).2.1,
           (processEmails o user p now l db).2.2) := by
      simp only [processProvider]
      rw [hf]
    refine ⟨_, _, _, hpp, rfl, ?_⟩
    have hpres : ∀ u : UserDoc,
        (UserDoc.setLastChecked u p now).telegramChatId = u.telegramChatId :=
      fun u => chatId_setLastChecked u p now
    refine ⟨u0.setLastChecked p now, ?_, lastChecked_set_same u0 p now⟩
    unfold updateLastChecked
    show findUser (updateFirstUser
        (processEmails o user p now l db).2.1.users user.telegramChatId
        fun u => u.setLastChecked p now) user.telegramChatId = _
    rw [findUser_updateFirst _ _ _ hpres, processEmails_users, hu]
    rfl

/-- Witness for C2: a successful fetch of one message stamps the sample
user's Gmail checkpoint with the invocation time. -/
theorem c2_checkpoint_advance_witness :
    ∃ r db2 ev, processProvider oW uW Provider.gmail 500 db0W
        = (.ok r, db2, ev) ∧
      r.emailsScanned = [eW].length ∧
      ∃ u1, findUser db2.users uW.telegramChatId = some u1 ∧
        u1.lastChecked Provider.gmail = some 500 :=
  (c2_checkpoint_advance oW uW Provider.gmail 500 db0W uW (by decide)).2
    [eW] rfl

/-- A message that is not yet marked notified always reaches classification
(the loop body emits its `classified` event in every non-skip branch). -/
theorem classified_mem_of_not_notified (o : Oracles) (user : UserDoc)
    (p : Provider) (now : Int) (db : DBState) (em : Email)
    (hnot : isEmailNotified user.telegramChatId p em.messageId db = false) :
    Ev.classified em.provider em.messageId
      ∈ (processOneEmail o user p now db em).2.2 := by
  simp only [processOneEmail, hnot, Bool.false_eq_true, if_false]
  split
  · split <;> simp
  · simp

/-- Claim C4: for a not-yet-notified message whose classification is important
with its category enabled, the notification record is written (the
saveEmail upsert, which marks the message notified and persists the
classification) iff the delivery call returned true; when delivery does not
return true the database is unchanged, the message is still not marked
notified, and a later sweep that fetches it again reaches classification. -/
theorem c4_ledger_write_iff_delivery (o : Oracles) (user : UserDoc)
    (p : Provider) (now : Int) (db : DBState) (em : Email)
    (hnot : isEmailNotified user.telegramChatId p em.messageId db = false)
    (himp : (classifyEmail o.gemini o.aiRaw em).important = true)
    (hen : catPref user.settings.categories
        (classifyEmail o.gemini o.aiRaw em).category ≠ some false) :
    ((Ev.saved em.provider em.messageId
        ∈ (processOneEmail o user p now db em).2.2) ↔
      o.send user.telegramChatId em (classifyEmail o.gemini o.aiRaw em)
        = .ok true) ∧
    (o.send user.telegramChatId em (classifyEmail o.gemini o.aiRaw em)
        = .ok true →
      (processOneEmail o user p now db em).2.1
        = saveEmail user em (classifyEmail o.gemini o.aiRaw em) now db) ∧
    (o.send user.telegramChatId em (classifyEmail o.gemini o.aiRaw em)
        ≠ .ok true →
      (processOneEmail o user p now db em).2.1 = db ∧
      isEmailNotified user.telegramChatId p em.messageId
        (processOneEmail o user p now db em).2.1 = false ∧
      ∀ o2 now2, Ev.classified em.provider em.messageId
        ∈ (processOneEmail o2 user p now2
            (processOneEmail o user p now db em).2.1 em).2.2) := by
  have hcond : ((classifyEmail o.gemini o.aiRaw em).important &&
      decide (catPref user.settings.categories
        (classifyEmail o.gemini o.aiRaw em).category ≠ some false)) = true := by
    rw [himp, decide_eq_true hen]
    rfl
  have hstep : processOneEmail o user p now db em =
      (match o.send user.telegramChatId em
          (classifyEmail o.gemini o.aiRaw em) with
      | .ok true =>
        (⟨1, 1⟩, saveEmail user em (classifyEmail o.gemini o.aiRaw em) now db,
          [.classified em.provider em.messageId,
           .delivered em.provider em.messageId,
           .saved em.provider em.messageId])
      | .ok false => (⟨1, 0⟩, db, [.classified em.provider em.messageId])
      | .error _ => (⟨1, 0⟩, db, [.classified em.provider em.messageId])) := by
    simp only [processOneEmail, hnot, Bool.false_eq_true, if_false, hcond,
      if_true]
  rcases hsend : o.send user.telegramChatId em
      (classifyEmail o.gemini o.aiRaw em) with e | b
  · rw [hsend] at hstep
    refine ⟨?_, ?_, ?_⟩
    · refine iff_of_false (by simp [hstep]) ?_
      intro hok
      exact Except.noConfusion hok
    · intro hok
      exact Except.noConfusion hok
    · intro _
      refine ⟨by simp [hstep], ?_, ?_⟩
      · simp only [hstep]
        exact hnot
      · intro o2 now2
        have hdb : (processOneEmail o user p now db em).2.1 = db := by
          simp [hstep]
        rw [hdb]
        exact classified_mem_of_not_notified o2 user p now2 db em hnot
  · cases b
    · rw [hsend] at hstep
      refine ⟨?_, ?_, ?_⟩
      · refine iff_of_false (by simp [hstep]) ?_
        intro hok
        injection hok with hb
        exact Bool.noConfusion hb
      · intro hok
        injection hok with hb
        exact Bool.noConfusion hb
      · intro _
        refine ⟨by simp [hstep], ?_, ?_⟩
        · simp only [hstep]
          exact hnot
        · intro o2 now2
          have hdb : (processOneEmail o user p now db em).2.1 = db := by
            simp [hstep]
          rw [hdb]
          exact classified_mem_of_not_notified o2 user p now2 db em hnot
    · rw [hsend] at hstep
      refine ⟨iff_of_true (by simp [hstep]) rfl, fun _ => by simp [hstep],
        fun hne => absurd rfl hne⟩

/-- Witness for C4: with a delivery call that returns false, the database is
left untouched and the sample message is still not marked notified. -/
theorem c4_ledger_write_iff_delivery_witness :
    (processOneEmail oSendFail uW Provider.gmail 600 db0W eW).2.1 = db0W ∧
    isEmailNotified uW.telegramChatId Provider.gmail "m1"
      (processOneEmail oSendFail uW Provider.gmail 600 db0W eW).2.1
        = false := by
  have h := c4_ledger_write_iff_delivery oSendFail uW Provider.gmail 600 db0W
    eW (by decide) (by decide) (by decide)
  have h3 := h.2.2 (fun hok => Bool.noConfusion (Except.ok.inj hok))
  exact ⟨h3.1, h3.2.1⟩

/-- The cron loop counts every iterated user in usersProcessed. -/
theorem cronUsers_count (o : Oracles) (now : Int) (l : List UserDoc)
    (db : DBState) : (cronUsers o now l db).1.usersProcessed = l.length := by
  induction l generalizing db with
  | nil => rfl
  | cons u rest ih =>
    show (cronUsers o now rest
        (processUserEmails o u now db).2.1).1.usersProcessed + 1 = rest.length + 1
    rw [ih]

/-- Claim C9 counterexample: a user that is active and has an enabled provider
but has notifications globally disabled is still selected by getActiveUsers
(the query does not filter on `settings.notificationsEnabled`) and is counted
in usersProcessed, although the spec's active-recipient predicate excludes
it — so the iterated set is not the claimed set. -/
theorem c9_active_selection_counterexample :
    getActiveUsers db9.users = [u9] ∧
    specActiveUser u9 = false ∧
    u9.settings.notificationsEnabled = false ∧
    (cronCheck oW 700 db9).1.usersProcessed = 1 := by
  refine ⟨by decide, by decide, by decide, by decide⟩

/-- Claim C9 amended: the set of users the orchestrator iterates is exactly
the users that are active and have at least one enabled provider — with no
condition on the global notifications setting — and every user in that set is
counted in usersProcessed; a selected user with notifications disabled merely
contributes a zero result and leaves the database untouched. -/
theorem c9_active_selection_amended (o : Oracles) (now : Int) (db : DBState) :
    (∀ u, u ∈ getActiveUsers db.users ↔
      u ∈ db.users ∧ u.isActive = true ∧
        (u.gmailCfg.enabled = true ∨ u.outlookCfg.enabled = true)) ∧
    (cronCheck o now db).1.usersProcessed
        = (getActiveUsers db.users).length ∧
    (∀ u db2, u.settings.notificationsEnabled = false →
      (processUserEmails o u now db2).1.emailsScanned = 0 ∧
      (processUserEmails o u now db2).1.notificationsSent = 0 ∧
      (processUserEmails o u now db2).2.1 = db2) := by
  refine ⟨?_, cronUsers_count o now (getActiveUsers db.users) db, ?_⟩
  · intro u
    simp [getActiveUsers, List.mem_filter, Bool.and_eq_true, Bool.or_eq_true,
      and_assoc]
  · intro u db2 h
    refine ⟨?_, ?_, ?_⟩ <;> simp [processUserEmails, h]

/-- Witness for C9 (amended): the notifications-paused user is selected and
counted on the concrete database. -/
theorem c9_active_selection_amended_witness :
    u9 ∈ getActiveUsers db9.users ∧
    (cronCheck oW 700 db9).1.usersProcessed
      = (getActiveUsers db9.users).length :=
  ⟨((c9_active_selection_amended oW 700 db9).1 u9).mpr
      ⟨by decide, by decide, Or.inl (by decide)⟩,
    (c9_active_selection_amended oW 700 db9).2.1⟩

/-- Left cancellation for string append. -/
theorem strApp_left_cancel (s t u : String) (h : s ++ t = s ++ u) : t = u := by
  have hd := congrArg String.data h
  rw [String.data_append, String.data_append] at hd
  have hdu := List.append_cancel_left hd
  cases t
  cases u
  exact congrArg String.mk hdu

/-- Two uniqueIds for the same provider agree only on equal messageIds. -/
theorem uidOf_inj_mid (p : Provider) (m1 m2 : String)
    (h : uidOf p m1 = uidOf p m2) : m1 = m2 :=
  strApp_left_cancel (providerName p ++ "_") m1 m2 (by
    simpa [uidOf, String.append_assoc] using h)

/-- When no document carries the uniqueId, the saveEmail upsert appends the
fresh document. -/
theorem saveEmailList_insert_fresh (user : UserDoc) (em : Email)
    (cls : ClassificationResult) (now : Int) (uid : String)
    (l : List EmailDoc) (hfresh : ∀ d ∈ l, d.uniqueId ≠ uid) :
    saveEmailList user em cls now uid l
      = l ++ [newEmailDoc user em cls now] := by
  induction l with
  | nil => rfl
  | cons d rest ih =>
    rw [saveEmailList, if_neg (hfresh d (List.mem_cons_self d rest))]
    rw [ih fun d2 h2 => hfresh d2 (List.mem_cons_of_mem d h2)]
    rfl

/-- Membership in the upserted collection: a document is the fresh insert, an
updated first match (same identity fields, notified set), or an untouched
original. -/
theorem saveEmailList_mem (user : UserDoc) (em : Email)
    (cls : ClassificationResult) (now : Int) (uid : String)
    (l : List EmailDoc) :
    ∀ d ∈ saveEmailList user em cls now uid l,
      d = newEmailDoc user em cls now ∨
      (∃ d0 ∈ l, d = d0.markNotified cls now ∧ d0.uniqueId = uid) ∨
      d ∈ l := by
  induction l with
  | nil =>
    intro d hd
    rcases List.mem_singleton.mp hd with rfl
    exact Or.inl rfl
  | cons d0 rest ih =>
    intro d hd
    by_cases h0 : d0.uniqueId = uid
    · rw [saveEmailList, if_pos h0] at hd
      rcases List.mem_cons.mp hd with rfl | hd
      · exact Or.inr (Or.inl ⟨d0, List.mem_cons_self d0 rest, rfl, h0⟩)
      · exact Or.inr (Or.inr (List.mem_cons_of_mem d0 hd))
    · rw [saveEmailList, if_neg h0] at hd
      rcases List.mem_cons.mp hd with rfl | hd
      · exact Or.inr (Or.inr (List.mem_cons_self d rest))
      · rcases ih d hd with h | ⟨d1, hm, he, hu⟩ | h
        · exact Or.inl h
        · exact Or.inr (Or.inl ⟨d1, List.mem_cons_of_mem d0 hm, he, hu⟩)
        · exact Or.inr (Or.inr (List.mem_cons_of_mem d0 h))

/-- saveEmail keeps the Emails collection well-formed. -/
theorem emailsWF_saveEmail (user : UserDoc) (em : Email)
    (cls : ClassificationResult) (now : Int) (db : DBState)
    (hwf : emailsWF db) : emailsWF (saveEmail user em cls now db) := by
  intro d hd
  rcases saveEmailList_mem user em cls now (uidOf em.provider em.messageId)
      db.emails d hd with h | ⟨d0, hm, he, _⟩ | h
  · subst h
    rfl
  · subst he
    simpa [EmailDoc.markNotified] using hwf d0 hm
  · exact hwf d h

/-- saveEmail for one message key leaves every other key unrecorded. -/
theorem freshKey_saveEmail (user : UserDoc) (em : Email)
    (cls : ClassificationResult) (now : Int) (db : DBState) (p : Provider)
    (mid : String)
    (hne : uidOf em.provider em.messageId ≠ uidOf p mid)
    (hfresh : freshKey db p mid) :
    freshKey (saveEmail user em cls now db) p mid := by
  intro d hd
  rcases saveEmailList_mem user em cls now (uidOf em.provider em.messageId)
      db.emails d hd with h | ⟨d0, hm, he, _⟩ | h
  · subst h
    exact hne
  · subst he
    simpa [EmailDoc.markNotified] using hfresh d0 hm
  · exact hfresh d h

/-- The saveEmail upsert does not change the documents carrying any other
uniqueId. -/
theorem saveEmailList_filter_other (user : UserDoc) (em : Email)
    (cls : ClassificationResult) (now : Int) (q : String)
    (l : List EmailDoc) (hq : q ≠ uidOf em.provider em.messageId) :
    (saveEmailList user em cls now (uidOf em.provider em.messageId) l).filter
        (fun d => decide (d.uniqueId = q))
      = l.filter fun d => decide (d.uniqueId = q) := by
  induction l with
  | nil =>
    simp [saveEmailList, newEmailDoc, Ne.symm hq]
  | cons d rest ih =>
    by_cases hd : d.uniqueId = uidOf em.provider em.messageId
    · rw [saveEmailList, if_pos hd]
      by_cases hdq : d.uniqueId = q
      · exact absurd (hdq.symm.trans hd) hq
      · rw [List.filter_cons, List.filter_cons,
          if_neg (by simpa [EmailDoc.markNotified] using hdq),
          if_neg (by simpa using hdq)]
    · rw [saveEmailList, if_neg hd, List.filter_cons, List.filter_cons]
      rw [ih]

/-- The list-level upsert preserves any witness of a predicate that is stable
under the notified update. -/
theorem saveEmailList_any_mono (user : UserDoc) (em : Email)
    (cls : ClassificationResult) (now : Int) (uid : String)
    (l : List EmailDoc) (P : EmailDoc → Bool)
    (hPupd : ∀ d0, P d0 = true → P (d0.markNotified cls now) = true)
    (h : l.any P = true) :
    (saveEmailList user em cls now uid l).any P = true := by
  induction l with
  | nil => cases h
  | cons d0 rest ih =>
    rw [saveEmailList]
    rw [List.any_cons, Bool.or_eq_true] at h
    by_cases h0 : d0.uniqueId = uid
    · rw [if_pos h0, List.any_cons, Bool.or_eq_true]
      rcases h with h | h
      · exact Or.inl (hPupd d0 h)
      · exact Or.inr h
    · rw [if_neg h0, List.any_cons, Bool.or_eq_true]
      rcases h with h | h
      · exact Or.inl h
      · exact Or.inr (ih h)

/-- A positive idempotency answer survives any saveEmail (updates only ever
set `notified` to true and never change identity fields). -/
theorem isEmailNotified_saveEmail_true (user : UserDoc) (em : Email)
    (cls : ClassificationResult) (now : Int) (db : DBState) (chatId : String)
    (p : Provider) (mid : String)
    (h : isEmailNotified chatId p mid db = true) :
    isEmailNotified chatId p mid (saveEmail user em cls now db) = true := by
  refine saveEmailList_any_mono user em cls now _ db.emails _ ?_ h
  intro d0 h0
  simp only [EmailDoc.markNotified, Bool.and_eq_true, decide_eq_true_eq] at h0 ⊢
  simp [h0.1]

/-- An unrecorded key is reported not notified. -/
theorem not_notified_of_fresh (db : DBState) (chatId : String) (p : Provider)
    (mid : String) (hwf : emailsWF db) (hfresh : freshKey db p mid) :
    isEmailNotified chatId p mid db = false := by
  rw [Bool.eq_false_iff]
  intro h
  simp only [isEmailNotified, List.any_eq_true, Bool.and_eq_true,
    decide_eq_true_eq] at h
  obtain ⟨d, hd, hP⟩ := h
  refine hfresh d hd ?_
  rw [hwf d hd, hP.1.1.2, hP.1.2]

/-- A message already marked notified is skipped entirely: no classification,
no side effects, no events. -/
theorem processOneEmail_skip (o : Oracles) (user : UserDoc) (p : Provider)
    (now : Int) (db : DBState) (em : Email)
    (h : isEmailNotified user.telegramChatId p em.messageId db = true) :
    processOneEmail o user p now db em = (⟨0, 0⟩, db, []) := by
  simp [processOneEmail, h]

/-- The loop body either leaves the database alone or performs the saveEmail
upsert for its message. -/
theorem processOneEmail_db_cases (o : Oracles) (user : UserDoc) (p : Provider)
    (now : Int) (db : DBState) (em : Email) :
    (processOneEmail o user p now db em).2.1 = db ∨
    (processOneEmail o user p now db em).2.1
      = saveEmail user em (classifyEmail o.gemini o.aiRaw em) now db := by
  simp only [processOneEmail]
  split
  · exact Or.inl rfl
  · split
    · split <;> first | exact Or.inr rfl | exact Or.inl rfl
    · exact Or.inl rfl

/-- The loop body emits no events, just the classified event, or the full
classified/delivered/saved sequence, always tagged with its own message. -/
theorem processOneEmail_events_cases (o : Oracles) (user : UserDoc)
    (p : Provider) (now : Int) (db : DBState) (em : Email) :
    (processOneEmail o user p now db em).2.2 = [] ∨
    (processOneEmail o user p now db em).2.2
      = [.classified em.provider em.messageId] ∨
    (processOneEmail o user p now db em).2.2
      = [.classified em.provider em.messageId,
         .delivered em.provider em.messageId,
         .saved em.provider em.messageId] := by
  simp only [processOneEmail]
  split
  · exact Or.inl rfl
  · split
    · split <;>
        first
          | exact Or.inr (Or.inr rfl)
          | exact Or.inr (Or.inl rfl)
    · exact Or.inr (Or.inl rfl)

/-- The loop body for a different messageId contributes no events about the
key being tracked. -/
theorem processOneEmail_counts_other (o : Oracles) (user : UserDoc)
    (p : Provider) (now : Int) (db : DBState) (em : Email) (mid : String)
    (hne : em.messageId ≠ mid) :
    (processOneEmail o user p now db em).2.2.count (Ev.classified p mid) = 0 ∧
    (processOneEmail o user p now db em).2.2.count (Ev.delivered p mid) = 0 ∧
    (processOneEmail o user p now db em).2.2.count (Ev.saved p mid) = 0 := by
  rcases processOneEmail_events_cases o user p now db em with he | he | he <;>
    refine ⟨?_, ?_, ?_⟩ <;>
      simp [he, List.count_cons, List.count_nil, hne]

/-- The database threaded through a cons step of the loop. -/
theorem processEmails_cons_db (o : Oracles) (user : UserDoc) (p : Provider)
    (now : Int) (em : Email) (rest : List Email) (db : DBState) :
    (processEmails o user p now (em :: rest) db).2.1
      = (processEmails o user p now rest
          (processOneEmail o user p now db em).2.1).2.1 := rfl

/-- The events of a cons step of the loop. -/
theorem processEmails_cons_ev (o : Oracles) (user : UserDoc) (p : Provider)
    (now : Int) (em : Email) (rest : List Email) (db : DBState) :
    (processEmails o user p now (em :: rest) db).2.2
      = (processOneEmail o user p now db em).2.2
          ++ (processEmails o user p now rest
              (processOneEmail o user p now db em).2.1).2.2 := rfl

/-- Once the key is in notified state, the rest of a sweep keeps it there,
skips every occurrence of the key before classification, and emits no events
about it. -/
theorem loop_phase2 (o : Oracles) (user : UserDoc) (p : Provider) (now : Int)
    (mid : String) (l : List Email) : ∀ db : DBState,
    (∀ em ∈ l, em.provider = p) →
    notifiedState db user.telegramChatId p mid →
    notifiedState (processEmails o user p now l db).2.1
      user.telegramChatId p mid ∧
    (processEmails o user p now l db).2.2.count (Ev.classified p mid) = 0 ∧
    (processEmails o user p now l db).2.2.count (Ev.delivered p mid) = 0 ∧
    (processEmails o user p now l db).2.2.count (Ev.saved p mid) = 0 := by
  induction l with
  | nil => exact fun db _ hst => ⟨hst, rfl, rfl, rfl⟩
  | cons em rest ih =>
    intro db hl hst
    have hp := hl em (List.mem_cons_self em rest)
    have hstep : notifiedState (processOneEmail o user p now db em).2.1
        user.telegramChatId p mid ∧
        (processOneEmail o user p now db em).2.2.count
          (Ev.classified p mid) = 0 ∧
        (processOneEmail o user p now db em).2.2.count
          (Ev.delivered p mid) = 0 ∧
        (processOneEmail o user p now db em).2.2.count
          (Ev.saved p mid) = 0 := by
      by_cases hkey : em.messageId = mid
      · have hskip := processOneEmail_skip o user p now db em
          (by rw [hkey]; exact hst.2)
        rw [hskip]
        exact ⟨hst, rfl, rfl, rfl⟩
      · obtain ⟨hc1, hc2, hc3⟩ :=
          processOneEmail_counts_other o user p now db em mid hkey
        refine ⟨?_, hc1, hc2, hc3⟩
        rcases processOneEmail_db_cases o user p now db em with hdb | hdb <;>
          rw [hdb]
        · exact hst
        · have hne2 : uidOf p mid ≠ uidOf em.provider em.messageId := by
            intro hcontra
            rw [hp] at hcontra
            exact hkey (uidOf_inj_mid p mid em.messageId hcontra).symm
          constructor
          · show (((saveEmail user em
                (classifyEmail o.gemini o.aiRaw em) now db).emails).filter
                (fun d => decide (d.uniqueId = uidOf p mid))).length = 1
            simp only [saveEmail]
            rw [saveEmailList_filter_other user em
              (classifyEmail o.gemini o.aiRaw em) now (uidOf p mid)
              db.emails hne2]
            exact hst.1
          · exact isEmailNotified_saveEmail_true user em
              (classifyEmail o.gemini o.aiRaw em) now db
              user.telegramChatId p mid hst.2
    obtain ⟨hs1, hs2, hs3, hs4⟩ := hstep
    obtain ⟨hr1, hr2, hr3, hr4⟩ :=
      ih (processOneEmail o user p now db em).2.1
        (fun e he => hl e (List.mem_cons_of_mem em he)) hs1
    refine ⟨by rw [processEmails_cons_db]; exact hr1, ?_, ?_, ?_⟩ <;>
      rw [processEmails_cons_ev, List.count_append]
    · rw [hs2, hr2]
    · rw [hs3, hr3]
    · rw [hs4, hr4]

/-- First sweep over a batch containing the fresh key, when every occurrence
of the key classifies important-and-enabled and delivers successfully: the
key ends in notified state and exactly one delivery event for it is
emitted. -/
theorem loop_phase1 (o : Oracles) (user : UserDoc) (p : Provider) (now : Int)
    (mid : String) (l : List Email) : ∀ db : DBState,
    emailsWF db → freshKey db p mid →
    (∀ em ∈ l, em.provider = p) →
    (∀ em ∈ l, em.messageId = mid →
      (classifyEmail o.gemini o.aiRaw em).important = true ∧
      decide (catPref user.settings.categories
        (classifyEmail o.gemini o.aiRaw em).category ≠ some false) = true ∧
      o.send user.telegramChatId em (classifyEmail o.gemini o.aiRaw em)
        = .ok true) →
    (∃ em ∈ l, em.messageId = mid) →
    notifiedState (processEmails o user p now l db).2.1
      user.telegramChatId p mid ∧
    (processEmails o user p now l db).2.2.count (Ev.delivered p mid) = 1 := by
  induction l with
  | nil =>
    intro db _ _ _ _ hmem
    rcases hmem with ⟨em, hm, _⟩
    cases hm
  | cons em rest ih =>
    intro db hwf hfresh hl hAll hmem
    have hp := hl em (List.mem_cons_self em rest)
    by_cases hkey : em.messageId = mid
    · obtain ⟨himp, hen, hsend⟩ := hAll em (List.mem_cons_self em rest) hkey
      have hnotif : isEmailNotified user.telegramChatId p em.messageId db
          = false := by
        rw [hkey]
        exact not_notified_of_fresh db user.telegramChatId p mid hwf hfresh
      have hcond : ((classifyEmail o.gemini o.aiRaw em).important &&
          decide (catPref user.settings.categories
            (classifyEmail o.gemini o.aiRaw em).category ≠ some false))
          = true := by
        rw [himp, hen]
        rfl
      have hstep : processOneEmail o user p now db em =
          (⟨1, 1⟩, saveEmail user em (classifyEmail o.gemini o.aiRaw em) now db,
           [.classified em.provider em.messageId,
            .delivered em.provider em.messageId,
            .saved em.provider em.messageId]) := by
        simp only [processOneEmail, hnotif, Bool.false_eq_true, if_false,
          hcond, if_true, hsend]
      have hfreshsave : ∀ d ∈ db.emails,
          d.uniqueId ≠ uidOf em.provider em.messageId := by
        intro d hd
        rw [hp, hkey]
        exact hfresh d hd
      have hins : (saveEmail user em (classifyEmail o.gemini o.aiRaw em)
            now db).emails
          = db.emails
              ++ [newEmailDoc user em (classifyEmail o.gemini o.aiRaw em)
                    now] := by
        simp only [saveEmail]
        exact saveEmailList_insert_fresh user em
          (classifyEmail o.gemini o.aiRaw em) now
          (uidOf em.provider em.messageId) db.emails hfreshsave
      have hstsave : notifiedState (saveEmail user em
          (classifyEmail o.gemini o.aiRaw em) now db)
          user.telegramChatId p mid := by
        constructor
        · show (((saveEmail user em (classifyEmail o.gemini o.aiRaw em)
              now db).emails).filter
              (fun d => decide (d.uniqueId = uidOf p mid))).length = 1
          rw [hins, List.filter_append]
          have hfe : db.emails.filter
              (fun d => decide (d.uniqueId = uidOf p mid)) = [] := by
            rw [List.filter_eq_nil_iff]
            intro d hd
            simpa using hfresh d hd
          rw [hfe]
          simp [newEmailDoc, hp, hkey]
        · simp only [isEmailNotified, List.any_eq_true]
          refine ⟨newEmailDoc user em (classifyEmail o.gemini o.aiRaw em) now,
            ?_, ?_⟩
          · rw [hins]
            exact List.mem_append_right _ (List.mem_singleton.mpr rfl)
          · simp [newEmailDoc, hp, hkey]
      obtain ⟨hr1, hr2, hr3, hr4⟩ := loop_phase2 o user p now mid rest
        (saveEmail user em (classifyEmail o.gemini o.aiRaw em) now db)
        (fun e he => hl e (List.mem_cons_of_mem em he)) hstsave
      constructor
      · rw [processEmails_cons_db]
        rw [show (processOneEmail o user p now db em).2.1
            = saveEmail user em (classifyEmail o.gemini o.aiRaw em) now db
          from by rw [hstep]]
        exact hr1
      · rw [processEmails_cons_ev, List.count_append]
        rw [show (processOneEmail o user p now db em).2.1
            = saveEmail user em (classifyEmail o.gemini o.aiRaw em) now db
          from by rw [hstep]]
        rw [hr3]
        rw [show (processOneEmail o user p now db em).2.2
            = [.classified em.provider em.messageId,
               .delivered em.provider em.messageId,
               .saved em.provider em.messageId]
          from by rw [hstep]]
        simp [List.count_cons, List.count_nil, hp, hkey]
    · have hne2 : uidOf em.provider em.messageId ≠ uidOf p mid := by
        intro hcontra
        rw [hp] at hcontra
        exact hkey (uidOf_inj_mid p em.messageId mid hcontra)
      have hpres : emailsWF (processOneEmail o user p now db em).2.1 ∧
          freshKey (processOneEmail o user p now db em).2.1 p mid := by
        rcases processOneEmail_db_cases o user p now db em with hdb | hdb <;>
          rw [hdb]
        · exact ⟨hwf, hfresh⟩
        · exact ⟨emailsWF_saveEmail user em
              (classifyEmail o.gemini o.aiRaw em) now db hwf,
            freshKey_saveEmail user em (classifyEmail o.gemini o.aiRaw em)
              now db p mid hne2 hfresh⟩
      obtain ⟨_, hcd, _⟩ :=
        processOneEmail_counts_other o user p now db em mid hkey
      have hmem2 : ∃ e ∈ rest, e.messageId = mid := by
        rcases hmem with ⟨e0, hm0, hk0⟩
        rcases List.mem_cons.mp hm0 with rfl | hm0
        · exact absurd hk0 hkey
        · exact ⟨e0, hm0, hk0⟩
      obtain ⟨hst', hcount'⟩ := ih (processOneEmail o user p now db em).2.1
        hpres.1 hpres.2 (fun e he => hl e (List.mem_cons_of_mem em he))
        (fun e he hk => hAll e (List.mem_cons_of_mem em he) hk) hmem2
      refine ⟨by rw [processEmails_cons_db]; exact hst', ?_⟩
      rw [processEmails_cons_ev, List.count_append, hcd, hcount']

/-- Claim C1: at-most-once notification.  Starting from a database holding no
record for the (provider, messageId) key, if processProvider runs twice for
the same recipient, both fetch results contain the message, and in the first
run every occurrence of the key classifies important with its category
enabled and delivers successfully (saveEmail then marks it notified), then
after the first run the isEmailNotified check answers true, the second run
never classifies the key (its loop skips it before classification) and
delivers nothing for it, exactly one delivery event for the key exists across
both runs, and exactly one notification record with the key's uniqueId exists
afterwards. -/
theorem c1_at_most_once (o1 o2 : Oracles) (user : UserDoc) (p : Provider)
    (now1 now2 : Int) (db0 : DBState) (l1 l2 : List Email) (mid : String)
    (hwf : emailsWF db0) (hfresh : freshKey db0 p mid)
    (hf1 : o1.fetch p ((user.providerCfg p).refreshToken.getD "")
      (getSinceTimestamp user p now1) = .ok l1)
    (hl1 : ∀ em ∈ l1, em.provider = p)
    (hAll : ∀ em ∈ l1, em.messageId = mid →
      (classifyEmail o1.gemini o1.aiRaw em).important = true ∧
      decide (catPref user.settings.categories
        (classifyEmail o1.gemini o1.aiRaw em).category ≠ some false) = true ∧
      o1.send user.telegramChatId em (classifyEmail o1.gemini o1.aiRaw em)
        = .ok true)
    (hmem1 : ∃ em ∈ l1, em.messageId = mid)
    (hf2 : o2.fetch p ((user.providerCfg p).refreshToken.getD "")
      (getSinceTimestamp user p now2) = .ok l2)
    (hl2 : ∀ em ∈ l2, em.provider = p)
    (_hmem2 : ∃ em ∈ l2, em.messageId = mid) :
    isEmailNotified user.telegramChatId p mid
        (processProvider o1 user p now1 db0).2.1 = true ∧
    (processProvider o1 user p now1 db0).2.2.count (Ev.delivered p mid) = 1 ∧
    (processProvider o2 user p now2
        (processProvider o1 user p now1 db0).2.1).2.2.count
      (Ev.classified p mid) = 0 ∧
    (processProvider o2 user p now2
        (processProvider o1 user p now1 db0).2.1).2.2.count
      (Ev.delivered p mid) = 0 ∧
    ((processProvider o2 user p now2
          (processProvider o1 user p now1 db0).2.1).2.1.emails.filter
        (fun d => decide (d.uniqueId = uidOf p mid))).length = 1 := by
  have hpp1 : processProvider o1 user p now1 db0
      = (.ok { emailsScanned := l1.length,
               importantFound :=
                 (processEmails o1 user p now1 l1 db0).1.importantFound,
               notificationsSent :=
                 (processEmails o1 user p now1 l1 db0).1.notificationsSent },
         updateLastChecked user.telegramChatId p now1
           (processEmails o1 user p now1 l1 db0).2.1,
         (processEmails o1 user p now1 l1 db0).2.2) := by
    simp only [processProvider]
    rw [hf1]
  obtain ⟨hst1, hcnt1⟩ :=
    loop_phase1 o1 user p now1 mid l1 db0 hwf hfresh hl1 hAll hmem1
  have hst1u : notifiedState
      (updateLastChecked user.telegramChatId p now1
        (processEmails o1 user p now1 l1 db0).2.1)
      user.telegramChatId p mid := hst1
  have hdb1 : (processProvider o1 user p now1 db0).2.1
      = updateLastChecked user.telegramChatId p now1
          (processEmails o1 user p now1 l1 db0).2.1 := by
    rw [hpp1]
  have hpp2 : processProvider o2 user p now2
      (processProvider o1 user p now1 db0).2.1
      = (.ok { emailsScanned := l2.length,
               importantFound :=
                 (processEmails o2 user p now2 l2
                   (processProvider o1 user p now1 db0).2.1).1.importantFound,
               notificationsSent :=
                 (processEmails o2 user p now2 l2
                   (processProvider o1 user p now1 db0).2.1).1.notificationsSent },
         updateLastChecked user.telegramChatId p now2
           (processEmails o2 user p now2 l2
             (processProvider o1 user p now1 db0).2.1).2.1,
         (processEmails o2 user p now2 l2
           (processProvider o1 user p now1 db0).2.1).2.2) := by
    simp only [processProvider]
    rw [hf2]
  obtain ⟨hst2, hc2a, hc2b, hc2c⟩ :=
    loop_phase2 o2 user p now2 mid l2
      (processProvider o1 user p now1 db0).2.1 hl2 (by rw [hdb1]; exact hst1u)
  refine ⟨?_, ?_, ?_, ?_, ?_⟩
  · rw [hdb1]
    exact hst1u.2
  · rw [hpp1]
    exact hcnt1
  · rw [hpp2]
    exact hc2a
  · rw [hpp2]
    exact hc2b
  · rw [hpp2]
    exact hst2.1

/-- Witness for C1: the concrete two-run scenario on the sample user and
message, with successful first delivery. -/
theorem c1_at_most_once_witness :
    isEmailNotified uW.telegramChatId Provider.gmail "m1"
        (processProvider oW uW Provider.gmail 100 db0W).2.1 = true ∧
    (processProvider oW uW Provider.gmail 100 db0W).2.2.count
      (Ev.delivered Provider.gmail "m1") = 1 ∧
    (processProvider oW uW Provider.gmail 200
        (processProvider oW uW Provider.gmail 100 db0W).2.1).2.2.count
      (Ev.classified Provider.gmail "m1") = 0 ∧
    (processProvider oW uW Provider.gmail 200
        (processProvider oW uW Provider.gmail 100 db0W).2.1).2.2.count
      (Ev.delivered Provider.gmail "m1") = 0 ∧
    ((processProvider oW uW Provider.gmail 200
          (processProvider oW uW Provider.gmail 100 db0W).2.1).2.1.emails.filter
        (fun d => decide (d.uniqueId = uidOf Provider.gmail "m1"))).length
      = 1 := by
  refine c1_at_most_once oW oW uW Provider.gmail 100 200 db0W [eW] [eW] "m1"
    (by intro d hd; cases hd) (by intro d hd; cases hd) rfl ?_ ?_ ?_ rfl ?_ ?_
  · intro em hm
    rcases List.mem_singleton.mp hm with rfl
    rfl
  · intro em hm hk
    rcases List.mem_singleton.mp hm with rfl
    exact ⟨by decide, by decide, rfl⟩
  · exact ⟨eW, List.mem_singleton.mpr rfl, rfl⟩
  · intro em hm
    rcases List.mem_singleton.mp hm with rfl
    rfl
  · exact ⟨eW, List.mem_singleton.mpr rfl, rfl⟩

end MailCron
